import Mathlib

/-!
# BU21150 touch-sensor acquisition core

A shallow embedding of `drivers/input/touchscreen/bu21150.c` and theorems about it.

Conventions of the embedding:

* `bu21150_data` carries the fields of the C struct of the same name together with the
  file-scope variables of the driver (`g_io_opened`, `g_bu21150_ioctl_unblock`,
  `get_frame_timer`) and the three pieces of the outside world the driver acts on: the level
  of the reset line, the disable depth of the interrupt line, and the log of SPI transfers
  handed to `spi_sync`.
* Byte buffers are lists of naturals; `u8`, `u16` and `u32` conversions are written as
  explicit `% 2^w` where the C code converts.
* What the outside world supplies (the SPI reply, the wall clock, `jiffies`, the contents and
  accessibility of user memory) is an explicit argument.
* A caller sleeping in `wait_event_interruptible` is driven by a list of events that other
  contexts perform while it sleeps (the deferred capture task, the timer, other control
  operations, a signal).
* `kzalloc` is assumed to succeed.
-/

namespace BU21150

/-! ## Constants of the driver -/

def REG_READ_DATA : Nat := 0x0400
def MAX_FRAME_SIZE : Nat := 8*1024+16
def SPI_HEADER_SIZE : Nat := 3
def FRAME_HEADER_SIZE : Nat := 16
def GPIO_LOW : Nat := 0
def GPIO_HIGH : Nat := 1
def WAITQ_WAIT : Nat := 0
def WAITQ_WAKEUP : Nat := 1
def TIMEOUT_SCALE : Nat := 20

/-- Modelled from the spec: `BU21150_RESET_LOW` is defined in `linux/input/bu21150.h`, which is
not part of the sources. The value is written to the reset line as a GPIO level. -/
def BU21150_RESET_LOW : Nat := 0

/-- Modelled from the spec: `BU21150_RESET_HIGH` is defined in `linux/input/bu21150.h`, which is
not part of the sources. The value is written to the reset line as a GPIO level. -/
def BU21150_RESET_HIGH : Nat := 1

/-- Modelled from the spec: return values of the control surface. `ok` is the C value `0`, the
`E...` constructors are the negative errno values, and `BU21150_UNBLOCK`, `BU21150_TIMEOUT` are
the two result codes of `linux/input/bu21150.h` (not part of the sources), which the spec lists
as results distinct from each other, from a frame and from an error. -/
inductive Ret
  | ok
  | EINVAL
  | EFAULT
  | EBUSY
  | ENOTTY
  | ERESTARTSYS
  | BU21150_UNBLOCK
  | BU21150_TIMEOUT
deriving DecidableEq, Repr

/-- Platform parameters the driver is compiled against. -/
structure Config where
  /-- timer ticks per second -/
  HZ : Nat
  /-- whether the host stores 16-bit words most significant byte first -/
  big_endian : Bool
deriving DecidableEq, Repr

/-! ## Data model -/

/-- Modelled from the spec: `struct bu21150_ioctl_get_frame_data` is declared in
`linux/input/bu21150.h`, which is not part of the sources. The driver reads the fields `buf`,
`size` and `tv`; each is taken to be a 32-bit quantity. -/
structure bu21150_ioctl_get_frame_data where
  buf : Nat
  size : Nat
  tv : Nat
deriving DecidableEq, Repr

/-- Modelled from the spec: `struct bu21150_ioctl_spi_data` is declared in
`linux/input/bu21150.h`, which is not part of the sources. The driver reads `addr`, `buf` and
`count`. -/
structure bu21150_ioctl_spi_data where
  addr : Nat
  buf : Nat
  count : Nat
deriving DecidableEq, Repr

/-- Modelled from the spec: `struct bu21150_ioctl_timeout_data` is declared in
`linux/input/bu21150.h`, which is not part of the sources. The driver reads `timeout_enb_flag`
and `report_interval_us`; the latter is taken to be a 32-bit unsigned quantity. -/
structure bu21150_ioctl_timeout_data where
  timeout_enb_flag : Nat
  report_interval_us : Nat
deriving DecidableEq, Repr

structure timeval where
  tv_sec : Nat
  tv_usec : Nat
deriving DecidableEq, Repr

/-- The kernel timer `get_frame_timer`: whether it is queued, and the fields the driver sets. -/
structure timer_list where
  pending : Bool
  expires : Nat
  data : Nat
deriving DecidableEq, Repr

/-- The single `spi_transfer` of a message, as the driver fills it in. `rx` records whether a
receive buffer is attached. -/
structure spi_transfer where
  tx_buf : List Nat
  rx : Bool
  len : Nat
  cs_change : Nat
  bits_per_word : Nat
deriving DecidableEq, Repr

/-- What `spi_sync` answers: its return value and the bytes the bus delivered. -/
structure spi_reply where
  ret : Int
  rx : List Nat
deriving DecidableEq, Repr

/-- A pointer argument coming from user space: the null pointer, a pointer `copy_from_user`
faults on, or a pointer to a readable object. -/
inductive UserArg (α : Type)
  | null
  | fault
  | ok (v : α)
deriving DecidableEq, Repr

structure bu21150_data where
  /- frame -/
  req_get : bu21150_ioctl_get_frame_data
  frame : List Nat
  frame_get : bu21150_ioctl_get_frame_data
  tv : timeval
  /- frame work -/
  frame_work : List Nat
  frame_work_get : bu21150_ioctl_get_frame_data
  /- waitq -/
  frame_waitq_flag : Nat
  /- reset -/
  reset_flag : Nat
  /- timeout -/
  timeout_enb_flag : Nat
  set_timer_flag : Nat
  timeout_flag : Nat
  timeout : Nat
  /- spi -/
  spi_buf : List Nat
  scan_mode : Nat
  /- file-scope variables -/
  g_io_opened : Int
  g_bu21150_ioctl_unblock : Int
  get_frame_timer : timer_list
  /- outside world -/
  rst_gpio_value : Nat
  irq_depth : Nat
  spi_log : List spi_transfer
deriving DecidableEq, Repr

/-- The state `kzalloc` and `bu21150_probe` leave behind: everything zero, the reset line
driven low, the interrupt line disabled once. -/
def probed : bu21150_data where
  req_get := ⟨0, 0, 0⟩
  frame := List.replicate MAX_FRAME_SIZE 0
  frame_get := ⟨0, 0, 0⟩
  tv := ⟨0, 0⟩
  frame_work := List.replicate MAX_FRAME_SIZE 0
  frame_work_get := ⟨0, 0, 0⟩
  frame_waitq_flag := 0
  reset_flag := 0
  timeout_enb_flag := 0
  set_timer_flag := 0
  timeout_flag := 0
  timeout := 0
  spi_buf := List.replicate MAX_FRAME_SIZE 0
  scan_mode := 0
  g_io_opened := 0
  g_bu21150_ioctl_unblock := 0
  get_frame_timer := ⟨false, 0, 0⟩
  rst_gpio_value := GPIO_LOW
  irq_depth := 1
  spi_log := []

/-- The three byte arrays of the device have their declared size. -/
def buffers_ok (ts : bu21150_data) : Prop :=
  ts.frame.length = MAX_FRAME_SIZE ∧ ts.frame_work.length = MAX_FRAME_SIZE ∧
    ts.spi_buf.length = MAX_FRAME_SIZE

instance (ts : bu21150_data) : Decidable (buffers_ok ts) := by
  unfold buffers_ok; infer_instance

/-! ## Memory helpers -/

/-- The C `memcpy(dst, src, n)` on byte lists: the first `n` bytes of `dst` are replaced by the
first `n` bytes of `src`. (A source shorter than `n` is outside the C semantics; only the bytes
it has are copied.) -/
def memcpy (dst src : List Nat) (n : Nat) : List Nat :=
  src.take n ++ dst.drop (min n src.length)

/-- The four bytes of a 32-bit quantity, least significant first. -/
def le32 (x : Nat) : List Nat :=
  [x % 256, x / 256 % 256, x / 65536 % 256, x / 16777216 % 256]

/-- The object representation of a request descriptor, the bytes that
`is_same_bu21150_ioctl_get_frame_data` walks over. -/
def frame_data_bytes (d : bu21150_ioctl_get_frame_data) : List Nat :=
  le32 d.buf ++ le32 d.size ++ le32 d.tv

/-- The C `sizeof(struct bu21150_ioctl_get_frame_data)`. -/
def sizeof_get_frame_data : Nat := 12

/-- The `for` loop of `is_same_bu21150_ioctl_get_frame_data`, at index `i` with `k` bytes
still to compare. -/
def is_same_scan (p1 p2 : List Nat) : Nat → Nat → Nat
  | _, 0 => 1
  | i, k+1 => if p1.getD i 0 ≠ p2.getD i 0 then 0 else is_same_scan p1 p2 (i+1) k

def is_same_bu21150_ioctl_get_frame_data (data1 data2 : bu21150_ioctl_get_frame_data) : Nat :=
  is_same_scan (frame_data_bytes data1) (frame_data_bytes data2) 0 sizeof_get_frame_data

/-! ## Bus transaction layer -/

/-- The kernel helper `be16_to_cpus` acting on the two bytes of a 16-bit word in memory: on a
little-endian host the bytes change places, on a big-endian host nothing happens. -/
def be16_to_cpus (cfg : Config) (w : Nat × Nat) : Nat × Nat :=
  if cfg.big_endian then w else (w.2, w.1)

/-- The `for` loop of `swap_2byte`: `be16_to_cpus` on the first `n` 16-bit words of `buf`. -/
def swap_words (cfg : Config) : Nat → List Nat → List Nat
  | n+1, a :: b :: rest =>
    (be16_to_cpus cfg (a, b)).1 :: (be16_to_cpus cfg (a, b)).2 :: swap_words cfg n rest
  | _, buf => buf

def swap_2byte (cfg : Config) (buf : List Nat) (size : Nat) : List Nat :=
  if size % 2 = 1 then buf
  else swap_words cfg (size / 2) buf

/-- The receive buffer after `spi_sync`: `len` zeroed bytes from `kzalloc`, overwritten by
what the bus delivered. -/
def spi_rx_buf (len : Nat) (rx : List Nat) : List Nat :=
  (rx ++ List.replicate len 0).take len

/-- The three header bytes of a transaction. -/
def spi_header (cmd addr : Nat) : List Nat :=
  [cmd, (addr &&& 0xFF00) >>> 8, (addr &&& 0x00FF) >>> 0]

/-- The transfer `bu21150_read_register` builds. `size` is the `u16` parameter. -/
def read_xfer (addr size : Nat) : spi_transfer where
  tx_buf := spi_header 0x03 (addr % 2^32) ++ List.replicate (size % 2^16) 0
  rx := true
  len := size % 2^16 + SPI_HEADER_SIZE
  cs_change := 0
  bits_per_word := 32

/-- Reads into `data` and returns the value of `spi_sync`, the updated `data` and the device
with the transfer logged. The arguments `addr` and `size` are converted to `u32` and `u16`. -/
def bu21150_read_register (cfg : Config) (ts : bu21150_data) (addr size : Nat)
    (data : List Nat) (reply : spi_reply) : Int × List Nat × bu21150_data :=
  let size16 := size % 2^16
  let output := spi_rx_buf (size16 + SPI_HEADER_SIZE) reply.rx
  let data1 := memcpy data (output.drop SPI_HEADER_SIZE) size16
  let data2 := swap_2byte cfg data1 size16
  (reply.ret, data2, { ts with spi_log := ts.spi_log ++ [read_xfer addr size] })

/-- The transfer `bu21150_write_register` builds from the caller's `data`. -/
def write_xfer (cfg : Config) (addr size : Nat) (data : List Nat) : spi_transfer where
  tx_buf := spi_header 0x02 (addr % 2^32) ++
    swap_2byte cfg (memcpy (List.replicate (size % 2^16) 0) data (size % 2^16)) (size % 2^16)
  rx := false
  len := size % 2^16 + SPI_HEADER_SIZE
  cs_change := 0
  bits_per_word := 8

/-- Writes `data` and returns the value of `spi_sync` and the device with the transfer
logged; the caller's `data` is only read. -/
def bu21150_write_register (cfg : Config) (ts : bu21150_data) (addr size : Nat)
    (data : List Nat) (ret : Int) : Int × bu21150_data :=
  (ret, { ts with spi_log := ts.spi_log ++ [write_xfer cfg addr size data] })

/-! ## Wake-up, timer, lifecycle -/

def wake_up_frame_waitq (ts : bu21150_data) : bu21150_data :=
  { ts with frame_waitq_flag := WAITQ_WAKEUP }

/-- The kernel `del_timer_sync`: the timer is no longer queued. -/
def del_timer_sync (t : timer_list) : timer_list :=
  { t with pending := false }

/-- The kernel `enable_irq`: one level of disabling is undone. -/
def enable_irq (ts : bu21150_data) : bu21150_data :=
  { ts with irq_depth := ts.irq_depth - 1 }

/-- The kernel `disable_irq`: one more level of disabling. -/
def disable_irq (ts : bu21150_data) : bu21150_data :=
  { ts with irq_depth := ts.irq_depth + 1 }

/-- Arms the timer at tick `jiffies`. In this model, arming a timer that is still queued
overwrites what was queued. -/
def get_frame_timer_init (ts : bu21150_data) (jiffies : Nat) : bu21150_data :=
  let ts1 :=
    if ts.set_timer_flag = 1 then
      { ts with get_frame_timer := del_timer_sync ts.get_frame_timer, set_timer_flag := 0 }
    else ts
  if ts1.timeout > 0 then
    { ts1 with
      set_timer_flag := 1
      timeout_flag := 0
      get_frame_timer := { pending := true, expires := jiffies + ts1.timeout, data := jiffies } }
  else ts1

def get_frame_timer_handler (ts : bu21150_data) : bu21150_data :=
  wake_up_frame_waitq { ts with timeout_flag := 1 }

def get_frame_timer_delete (ts : bu21150_data) : bu21150_data :=
  if ts.set_timer_flag = 1 then
    { ts with set_timer_flag := 0, get_frame_timer := del_timer_sync ts.get_frame_timer }
  else ts

/-- The kernel timer subsystem at tick `jiffies`: a queued timer whose expiry has been reached
is dequeued and its function runs; otherwise nothing happens. -/
def run_timers (ts : bu21150_data) (jiffies : Nat) : bu21150_data :=
  if ts.get_frame_timer.pending = true ∧ ts.get_frame_timer.expires ≤ jiffies then
    get_frame_timer_handler { ts with get_frame_timer := del_timer_sync ts.get_frame_timer }
  else ts

def bu21150_open (ts : bu21150_data) : Ret × bu21150_data :=
  if ts.g_io_opened ≠ 0 then (Ret.EBUSY, ts)
  else
    (Ret.ok, enable_irq
      { ts with
        g_io_opened := ts.g_io_opened + 1
        g_bu21150_ioctl_unblock := 0
        reset_flag := 0
        set_timer_flag := 0
        timeout_flag := 0
        timeout_enb_flag := 0
        req_get := { buf := 0, size := FRAME_HEADER_SIZE, tv := 0 }
        frame_get := { buf := 0, size := 0, tv := 0 }
        frame_work_get := { buf := 0, size := 0, tv := 0 } })

def bu21150_release (ts : bu21150_data) : Ret × bu21150_data :=
  if ts.g_io_opened = 0 then (Ret.ENOTTY, ts)
  else
    let n := ts.g_io_opened - 1
    (Ret.ok, disable_irq { ts with g_io_opened := if n < 0 then 0 else n })

/-! ## Control operations other than get-frame -/

def bu21150_ioctl_reset (ts : bu21150_data) (reset : Nat) : Ret × bu21150_data :=
  if ¬ (reset = BU21150_RESET_LOW ∨ reset = BU21150_RESET_HIGH) then (Ret.EINVAL, ts)
  else
    let ts1 := { ts with rst_gpio_value := reset, frame_waitq_flag := WAITQ_WAIT }
    (Ret.ok, if reset = BU21150_RESET_LOW then { ts1 with reset_flag := 1 } else ts1)

/-- Raw bus read. `reply` is what the bus answers if a transaction is issued, `uaccess` tells
whether `copy_to_user` to a user address succeeds. Returns the result, the bytes copied to the
caller's buffer and the device. -/
def bu21150_ioctl_spi_read (cfg : Config) (ts : bu21150_data)
    (arg : UserArg bu21150_ioctl_spi_data) (reply : spi_reply) (uaccess : Nat → Bool) :
    Ret × List Nat × bu21150_data :=
  match arg with
  | .null => (Ret.EINVAL, [], ts)
  | .fault => (Ret.EFAULT, [], ts)
  | .ok data =>
    if data.buf = 0 ∨ data.count = 0 ∨ MAX_FRAME_SIZE < data.count then (Ret.EINVAL, [], ts)
    else
      let r := bu21150_read_register cfg ts data.addr data.count ts.spi_buf reply
      let ts1 : bu21150_data := { r.2.2 with spi_buf := r.2.1 }
      if uaccess data.buf = false then (Ret.EFAULT, [], ts1)
      else (Ret.ok, ts1.spi_buf.take data.count, ts1)

/-- Raw bus write. `user` is the content of the caller's buffer (`none` if `copy_from_user`
faults on it), `ret` is what `spi_sync` answers if a transaction is issued. -/
def bu21150_ioctl_spi_write (cfg : Config) (ts : bu21150_data)
    (arg : UserArg bu21150_ioctl_spi_data) (user : Option (List Nat)) (ret : Int) :
    Ret × bu21150_data :=
  match arg with
  | .null => (Ret.EINVAL, ts)
  | .fault => (Ret.EFAULT, ts)
  | .ok data =>
    if data.buf = 0 ∨ data.count = 0 ∨ MAX_FRAME_SIZE < data.count then (Ret.EINVAL, ts)
    else
      match user with
      | none => (Ret.EFAULT, ts)
      | some bytes =>
        let ts1 := { ts with spi_buf := memcpy ts.spi_buf bytes data.count }
        (Ret.ok, (bu21150_write_register cfg ts1 data.addr data.count ts1.spi_buf ret).2)

def bu21150_ioctl_unblock (ts : bu21150_data) : Ret × bu21150_data :=
  (Ret.ok, wake_up_frame_waitq { ts with g_bu21150_ioctl_unblock := 1 })

def bu21150_ioctl_unblock_release (ts : bu21150_data) : Ret × bu21150_data :=
  (Ret.ok, { ts with g_bu21150_ioctl_unblock := 0 })

def bu21150_ioctl_suspend (ts : bu21150_data) : Ret × bu21150_data :=
  (Ret.ok, disable_irq (bu21150_ioctl_unblock ts).2)

def bu21150_ioctl_resume (ts : bu21150_data) : Ret × bu21150_data :=
  (Ret.ok, enable_irq { ts with g_bu21150_ioctl_unblock := 0 })

/-- The tick count `bu21150_ioctl_set_timeout` stores: the product is formed in 32-bit unsigned
arithmetic before the division. -/
def timeout_ticks (cfg : Config) (report_interval_us : Nat) : Nat :=
  (report_interval_us * TIMEOUT_SCALE * cfg.HZ) % 2^32 / 1000000

def bu21150_ioctl_set_timeout (cfg : Config) (ts : bu21150_data)
    (arg : UserArg bu21150_ioctl_timeout_data) : Ret × bu21150_data :=
  match arg with
  | .ok data =>
    let ts1 := { ts with timeout_enb_flag := data.timeout_enb_flag % 2^8 }
    if data.timeout_enb_flag = 1 then
      (Ret.ok, { ts1 with timeout := timeout_ticks cfg data.report_interval_us })
    else
      (Ret.ok, get_frame_timer_delete ts1)
  | _ => (Ret.EFAULT, ts)

def bu21150_ioctl_set_scan_mode (ts : bu21150_data) (arg : UserArg Nat) : Ret × bu21150_data :=
  match arg with
  | .ok v => (Ret.ok, { ts with scan_mode := v % 2^16 })
  | _ => (Ret.EFAULT, ts)

/-! ## Capture path -/

def bu21150_irq_handler (ts : bu21150_data) : bu21150_data :=
  { ts with irq_depth := ts.irq_depth + 1 }

/-- Publishes the working buffer; `now` is what `do_gettimeofday` reads. -/
def copy_frame (ts : bu21150_data) (now : timeval) : bu21150_data :=
  { ts with
    frame_get := ts.frame_work_get
    frame := memcpy ts.frame ts.frame_work MAX_FRAME_SIZE
    tv := now }

/-- One capture cycle; `reply` is what the bus answers, `now` the wall clock. -/
def bu21150_irq_work_func (cfg : Config) (ts : bu21150_data) (reply : spi_reply)
    (now : timeval) : bu21150_data :=
  let ts1 := { ts with frame_work_get := ts.req_get }
  let r := bu21150_read_register cfg ts1 REG_READ_DATA ts1.frame_work_get.size
    ts1.frame_work reply
  let ts2 : bu21150_data := { r.2.2 with frame_work := r.2.1 }
  let ts3 : bu21150_data :=
    if ts2.reset_flag = 0 then wake_up_frame_waitq (copy_frame ts2 now)
    else { ts2 with reset_flag := 0 }
  enable_irq ts3

/-! ## Request/response gate -/

/-- What another context does while a caller of get-frame sleeps: a signal for the caller, an
interrupt followed by its capture task, a run of the timer subsystem, or a control operation
issued by another thread. -/
inductive Event
  | signal
  | irq (reply : spi_reply) (now : timeval)
  | timer (jiffies : Nat)
  | reset (level : Nat)
  | unblock
  | unblock_release
  | suspend
  | resume
  | set_timeout (arg : UserArg bu21150_ioctl_timeout_data)
  | set_scan_mode (arg : UserArg Nat)
  | spi_read (arg : UserArg bu21150_ioctl_spi_data) (reply : spi_reply)
  | spi_write (arg : UserArg bu21150_ioctl_spi_data) (user : Option (List Nat)) (ret : Int)
deriving DecidableEq, Repr

/-- The effect of an event on the device. A signal does not touch the device. -/
def Event.apply (cfg : Config) (ts : bu21150_data) : Event → bu21150_data
  | .signal => ts
  | .irq reply now => bu21150_irq_work_func cfg (bu21150_irq_handler ts) reply now
  | .timer jiffies => run_timers ts jiffies
  | .reset level => (bu21150_ioctl_reset ts level).2
  | .unblock => (bu21150_ioctl_unblock ts).2
  | .unblock_release => (bu21150_ioctl_unblock_release ts).2
  | .suspend => (bu21150_ioctl_suspend ts).2
  | .resume => (bu21150_ioctl_resume ts).2
  | .set_timeout arg => (bu21150_ioctl_set_timeout cfg ts arg).2
  | .set_scan_mode arg => (bu21150_ioctl_set_scan_mode ts arg).2
  | .spi_read arg reply => (bu21150_ioctl_spi_read cfg ts arg reply (fun _ => true)).2.2
  | .spi_write arg user ret => (bu21150_ioctl_spi_write cfg ts arg user ret).2

/-- How a sleep ends: the condition became true, a signal arrived first, or the caller is
still asleep when the listed events are over. -/
inductive Wake
  | woken
  | interrupted
  | asleep
deriving DecidableEq, Repr

/-- The kernel `wait_event_interruptible(ts->frame_waitq, ts->frame_waitq_flag ==
WAITQ_WAKEUP)`: returns at once if the condition holds; otherwise the caller sleeps, the events
happen one by one, and the condition is looked at again after each. Returns how the sleep
ended, the device, and the events not yet consumed. -/
def wait_event_interruptible (cfg : Config) :
    bu21150_data → List Event → Wake × bu21150_data × List Event
  | ts, [] =>
    if ts.frame_waitq_flag = WAITQ_WAKEUP then (Wake.woken, ts, []) else (Wake.asleep, ts, [])
  | ts, e :: rest =>
    if ts.frame_waitq_flag = WAITQ_WAKEUP then (Wake.woken, ts, e :: rest)
    else
      match e with
      | .signal => (Wake.interrupted, ts, rest)
      | e => wait_event_interruptible cfg (e.apply cfg ts) rest

/-- Returns `none` while the caller is still asleep, otherwise the C return value. -/
def wait_frame_waitq (cfg : Config) (ts : bu21150_data) (evs : List Event) :
    Option Ret × bu21150_data × List Event :=
  if ts.g_bu21150_ioctl_unblock = 1 then (some Ret.BU21150_UNBLOCK, ts, evs)
  else
    match wait_event_interruptible cfg ts evs with
    | (Wake.asleep, ts1, rest) => (none, ts1, rest)
    | (Wake.interrupted, ts1, rest) => (some Ret.ERESTARTSYS, ts1, rest)
    | (Wake.woken, ts1, rest) =>
      let ts2 := { ts1 with frame_waitq_flag := WAITQ_WAIT }
      if ts2.timeout_enb_flag = 1 ∧ ts2.timeout_flag = 1 then
        (some Ret.BU21150_TIMEOUT, { ts2 with set_timer_flag := 0, timeout_flag := 0 }, rest)
      else if ts2.g_bu21150_ioctl_unblock = 1 then (some Ret.BU21150_UNBLOCK, ts2, rest)
      else (some Ret.ok, ts2, rest)

/-- How a get-frame call ends: with a return value and nothing copied out, with the frame and
timestamp copied to the caller (return value `0`), still asleep when the listed events are
over, or with the iteration budget of the model used up. -/
inductive Outcome
  | ret (r : Ret)
  | frame (buf : List Nat) (tv : timeval)
  | asleep
  | fuel
deriving DecidableEq, Repr

/-- The part of `bu21150_ioctl_get_frame` after the loop: the timer is deleted and the frame
and timestamp are copied out. -/
def get_frame_deliver (ts : bu21150_data) (data : bu21150_ioctl_get_frame_data)
    (uaccess : Nat → Bool) : Outcome × bu21150_data :=
  let ts1 := if ts.timeout_enb_flag = 1 then get_frame_timer_delete ts else ts
  let frame_size := ts1.frame_get.size
  if uaccess data.buf = false then (Outcome.ret Ret.EFAULT, ts1)
  else if uaccess data.tv = false then (Outcome.ret Ret.EFAULT, ts1)
  else (Outcome.frame (ts1.frame.take frame_size) ts1.tv, ts1)

/-- The `do ... while` loop of `bu21150_ioctl_get_frame`, with a budget of iterations. -/
def get_frame_loop (cfg : Config) (data : bu21150_ioctl_get_frame_data)
    (uaccess : Nat → Bool) : Nat → bu21150_data → List Event → Outcome × bu21150_data
  | 0, ts, _ => (Outcome.fuel, ts)
  | n+1, ts, evs =>
    match wait_frame_waitq cfg { ts with req_get := data } evs with
    | (none, ts1, _) => (Outcome.asleep, ts1)
    | (some ret, ts1, rest) =>
      if ret ≠ Ret.ok then (Outcome.ret ret, ts1)
      else if is_same_bu21150_ioctl_get_frame_data data ts1.frame_get = 0 then
        get_frame_loop cfg data uaccess n ts1 rest
      else get_frame_deliver ts1 data uaccess

/-- The get-frame operation entered at tick `jiffies`, with `evs` happening while it sleeps.
Every iteration but the first consumes an event, so `evs.length + 2` iterations are enough. -/
def bu21150_ioctl_get_frame (cfg : Config) (ts : bu21150_data)
    (arg : UserArg bu21150_ioctl_get_frame_data) (jiffies : Nat) (uaccess : Nat → Bool)
    (evs : List Event) : Outcome × bu21150_data :=
  match arg with
  | .null => (Outcome.ret Ret.EINVAL, ts)
  | .fault => (Outcome.ret Ret.EFAULT, ts)
  | .ok data =>
    if data.buf = 0 ∨ data.size = 0 ∨ MAX_FRAME_SIZE < data.size ∨ data.tv = 0 then
      (Outcome.ret Ret.EINVAL, ts)
    else
      let ts1 := if ts.timeout_enb_flag = 1 then get_frame_timer_init ts jiffies else ts
      get_frame_loop cfg data uaccess (evs.length + 2) ts1 evs

/-! ## Concrete inputs used to exercise the theorems -/

/-- A little-endian platform with 100 ticks per second. -/
def cfg_le : Config := { HZ := 100, big_endian := false }

/-- The device right after probe and a successful open. -/
def opened : bu21150_data := (bu21150_open probed).2

/-- A request for four bytes. -/
def req_a : bu21150_ioctl_get_frame_data := { buf := 4096, size := 4, tv := 8192 }

/-- A request for six bytes into the same buffers. -/
def req_b : bu21150_ioctl_get_frame_data := { buf := 4096, size := 6, tv := 8192 }

/-- User memory on which every copy succeeds. -/
def all_ok : Nat → Bool := fun _ => true

/-- The device after a get-frame call for `req_a` was interrupted by a signal and a capture
for `req_a` was then published: the wake is pending and nobody has consumed it. -/
def stale_a : bu21150_data :=
  Event.apply cfg_le
    (bu21150_ioctl_get_frame cfg_le opened (.ok req_a) 0 all_ok [Event.signal]).2
    (Event.irq ⟨0, [0, 0, 0, 1, 2, 3, 4]⟩ ⟨5, 6⟩)

/-! ## Reading 16-bit words -/

/-- The value of the 16-bit word whose first byte in memory is `b0` and whose second is `b1`,
as the host reads it. -/
def host16 (cfg : Config) (b0 b1 : Nat) : Nat :=
  if cfg.big_endian then b0 * 256 + b1 else b0 + b1 * 256

/-- The value of the big-endian 16-bit word whose first byte on the wire is `b0` and whose
second is `b1`. -/
def be16 (b0 b1 : Nat) : Nat := b0 * 256 + b1

/-- A request for three bytes. -/
def req_odd : bu21150_ioctl_get_frame_data := { buf := 4096, size := 3, tv := 8192 }

/-- The device after a get-frame call for `req_odd` was interrupted by a signal: the request
is pending and no capture has happened. -/
def pending_odd : bu21150_data :=
  (bu21150_ioctl_get_frame cfg_le opened (.ok req_odd) 0 all_ok [Event.signal]).2

/-- The device after a get-frame call for `req_a` was interrupted by a signal. -/
def pending_a : bu21150_data :=
  (bu21150_ioctl_get_frame cfg_le opened (.ok req_a) 0 all_ok [Event.signal]).2

/-- A device on which the cancel flag is set. -/
def cancelled : bu21150_data := (bu21150_ioctl_unblock opened).2

/-- A device with timeout mode enabled, timeout-fired left set and the wait flag WAITING:
timeout mode is enabled with a one-second interval, a get-frame call arms the timer and is
cancelled by unblock, the cancel flag is released, the timer expires with nobody waiting, a
reset(HIGH) puts the wait flag back to WAITING, and the interval is set to zero. -/
def stale_timeout : bu21150_data :=
  let s1 := (bu21150_ioctl_set_timeout cfg_le opened (.ok ⟨1, 1000000⟩)).2
  let s2 := (bu21150_ioctl_get_frame cfg_le s1 (.ok req_a) 0 all_ok [Event.unblock]).2
  let s3 := (bu21150_ioctl_unblock_release s2).2
  let s4 := run_timers s3 2000
  let s5 := (bu21150_ioctl_reset s4 BU21150_RESET_HIGH).2
  (bu21150_ioctl_set_timeout cfg_le s5 (.ok ⟨1, 0⟩)).2

/-- The device after open and set-timeout(enabled, one second): 2000 ticks at 100 ticks per
second. -/
def timeout_on : bu21150_data :=
  (bu21150_ioctl_set_timeout cfg_le opened (.ok ⟨1, 1000000⟩)).2

/-! ## A mock bus -/

/-- The memory of the mock bus: the bytes stored at each 16-bit address. -/
abbrev MockBus := Nat → List Nat

/-- The mock bus serving one transfer: a write transaction (command `0x02`) stores the bytes
transmitted after the three header bytes at the address in the header; a read transaction
(command `0x03`) answers three bytes of padding followed by the bytes stored at the address in
the header. Every transfer succeeds. -/
def mock_spi_sync (bus : MockBus) (x : spi_transfer) : spi_reply × MockBus :=
  let addr := x.tx_buf.getD 1 0 * 256 + x.tx_buf.getD 2 0
  if x.tx_buf.getD 0 0 = 0x02 then
    (⟨0, []⟩, Function.update bus addr ((x.tx_buf.take x.len).drop SPI_HEADER_SIZE))
  else if x.tx_buf.getD 0 0 = 0x03 then
    (⟨0, [0, 0, 0] ++ bus addr⟩, bus)
  else (⟨0, []⟩, bus)

/-- An empty mock bus. -/
def mock_empty : MockBus := fun _ => []

/-- One step in the life of the device: open, close, a get-frame call together with what
happens while it sleeps, or anything that happens while no get-frame call is in progress
(another control operation, a capture cycle, a run of the timer subsystem). -/
inductive Op
  | dev_open
  | dev_release
  | get_frame (arg : UserArg bu21150_ioctl_get_frame_data) (jiffies : Nat)
      (uaccess : Nat → Bool) (evs : List Event)
  | event (e : Event)

/-- The device after one step. -/
def Op.run (cfg : Config) (ts : bu21150_data) : Op → bu21150_data
  | .dev_open => (bu21150_open ts).2
  | .dev_release => (bu21150_release ts).2
  | .get_frame arg jiffies uaccess evs =>
    (bu21150_ioctl_get_frame cfg ts arg jiffies uaccess evs).2
  | .event e => e.apply cfg ts

/-- The device after a sequence of steps. -/
def run_ops (cfg : Config) (ts : bu21150_data) (ops : List Op) : bu21150_data :=
  ops.foldl (Op.run cfg) ts

/-- The device `stale_a` (a published capture whose wake nobody consumed) after close. -/
def closed_stale : bu21150_data := (bu21150_release stale_a).2

/-- The capture path can serve the pending request: its size is between 1 and
`MAX_FRAME_SIZE`, and the byte arrays have their declared size. -/
def capture_safe (ts : bu21150_data) : Prop :=
  1 ≤ ts.req_get.size ∧ ts.req_get.size ≤ MAX_FRAME_SIZE ∧ buffers_ok ts

/-- On this device `get_frame_timer_init` arms the timer (runs `init_timer` and `add_timer`)
without cancelling it first, although it is still queued: timer-armed is not set, the tick
count is positive, and the timer is queued. -/
def arms_queued_timer (ts : bu21150_data) : Prop :=
  ts.set_timer_flag ≠ 1 ∧ ts.timeout > 0 ∧ ts.get_frame_timer.pending = true

instance (ts : bu21150_data) : Decidable (arms_queued_timer ts) := by
  unfold arms_queued_timer; infer_instance

/-- The steps that lead to `reopened_armed` from the opened device: timeout mode is enabled
with a one-second interval, a get-frame call entered at tick 0 arms the timer for tick 2000
and is cancelled by unblock, the device is closed and opened again, and timeout mode is
enabled again. No timer run happens in between. -/
def reopen_steps : List Op :=
  [Op.event (Event.set_timeout (.ok ⟨1, 1000000⟩)),
   Op.get_frame (.ok req_a) 0 all_ok [Event.unblock],
   Op.dev_release,
   Op.dev_open,
   Op.event (Event.set_timeout (.ok ⟨1, 1000000⟩))]

/-- The device after `reopen_steps`. -/
def reopened_armed : bu21150_data := run_ops cfg_le opened reopen_steps

/-- Whether an event is a set-timeout operation issued by another thread. -/
def Event.is_set_timeout : Event → Bool
  | .set_timeout _ => true
  | _ => false

/-- The device with timeout mode enabled after a capture was published with nobody waiting:
a wake is pending when the next get-frame call enters. -/
def stale_wake_timeout : bu21150_data :=
  Event.apply cfg_le timeout_on (Event.irq ⟨0, [0, 0, 0, 1, 2, 3, 4]⟩ ⟨5, 6⟩)

/-! # Theorems -/

theorem is_same_scan_eq_one (p1 p2 : List Nat) (k : Nat) : ∀ i,
    is_same_scan p1 p2 i k = 1 ↔ ∀ j, i ≤ j → j < i + k → p1.getD j 0 = p2.getD j 0 := by
  induction k with
  | zero => intro i; simp [is_same_scan]; intro j h1 h2; omega
  | succ k ih =>
    intro i
    simp only [is_same_scan]
    by_cases h : p1.getD i 0 = p2.getD i 0
    · simp only [ne_eq, h, not_true_eq_false, if_false, ih]
      constructor
      · intro H j h1 h2
        by_cases hj : j = i
        · subst hj; exact h
        · exact H j (by omega) (by omega)
      · intro H j h1 h2
        exact H j (by omega) (by omega)
    · simp only [ne_eq, h, not_false_eq_true, if_true]
      constructor
      · intro H; exact absurd H (by decide)
      · intro H; exact absurd (H i (le_refl _) (by omega)) h

theorem is_same_scan_zero_or_one (p1 p2 : List Nat) (k : Nat) : ∀ i,
    is_same_scan p1 p2 i k = 0 ∨ is_same_scan p1 p2 i k = 1 := by
  induction k with
  | zero => intro i; right; rfl
  | succ k ih =>
    intro i
    simp only [is_same_scan]
    split
    · left; rfl
    · exact ih (i+1)

theorem frame_data_bytes_length (d : bu21150_ioctl_get_frame_data) :
    (frame_data_bytes d).length = sizeof_get_frame_data := by
  simp [frame_data_bytes, le32, sizeof_get_frame_data]

theorem is_same_eq_one_iff (d1 d2 : bu21150_ioctl_get_frame_data) :
    is_same_bu21150_ioctl_get_frame_data d1 d2 = 1 ↔ frame_data_bytes d1 = frame_data_bytes d2 := by
  unfold is_same_bu21150_ioctl_get_frame_data
  rw [is_same_scan_eq_one]
  constructor
  · intro H
    apply List.ext_getElem
    · rw [frame_data_bytes_length, frame_data_bytes_length]
    · intro n h1 h2
      have := H n (Nat.zero_le _) (by rw [frame_data_bytes_length] at h1; omega)
      rw [List.getD_eq_getElem _ _ h1, List.getD_eq_getElem _ _ h2] at this
      exact this
  · intro H j _ _
    rw [H]

theorem is_same_ne_zero_iff (d1 d2 : bu21150_ioctl_get_frame_data) :
    is_same_bu21150_ioctl_get_frame_data d1 d2 ≠ 0 ↔ frame_data_bytes d1 = frame_data_bytes d2 := by
  rw [← is_same_eq_one_iff]
  have h := is_same_scan_zero_or_one (frame_data_bytes d1) (frame_data_bytes d2)
    sizeof_get_frame_data 0
  unfold is_same_bu21150_ioctl_get_frame_data
  omega


theorem apply_req_get (cfg : Config) (ts : bu21150_data) (e : Event) :
    (e.apply cfg ts).req_get = ts.req_get := by
  cases e with
  | signal => rfl
  | irq reply now =>
    simp only [Event.apply, bu21150_irq_work_func, enable_irq, bu21150_read_register,
      bu21150_irq_handler, wake_up_frame_waitq, copy_frame]
    split <;> rfl
  | timer j =>
    simp only [Event.apply, run_timers, get_frame_timer_handler, wake_up_frame_waitq]
    split <;> rfl
  | reset level =>
    simp only [Event.apply, bu21150_ioctl_reset]
    split
    · rfl
    · split <;> rfl
  | unblock => rfl
  | unblock_release => rfl
  | suspend => rfl
  | resume => rfl
  | set_timeout arg =>
    cases arg with
    | null => rfl
    | fault => rfl
    | ok data =>
      simp only [Event.apply, bu21150_ioctl_set_timeout, get_frame_timer_delete]
      split
      · rfl
      · split <;> rfl
  | set_scan_mode arg => cases arg <;> rfl
  | spi_read arg reply =>
    cases arg with
    | null => rfl
    | fault => rfl
    | ok data =>
      simp only [Event.apply, bu21150_ioctl_spi_read, bu21150_read_register]
      split
      · rfl
      · split <;> rfl
  | spi_write arg user ret =>
    cases arg with
    | null => rfl
    | fault => rfl
    | ok data =>
      simp only [Event.apply, bu21150_ioctl_spi_write, bu21150_write_register]
      split
      · rfl
      · cases user <;> rfl

theorem wait_event_req_get (cfg : Config) (evs : List Event) : ∀ ts,
    (wait_event_interruptible cfg ts evs).2.1.req_get = ts.req_get := by
  induction evs with
  | nil => intro ts; simp only [wait_event_interruptible]; split <;> rfl
  | cons e rest ih =>
    intro ts
    simp only [wait_event_interruptible]
    split
    · rfl
    · cases e <;> first | rfl | (simp only [ih, apply_req_get])

theorem wait_frame_req_get (cfg : Config) (ts : bu21150_data) (evs : List Event) :
    (wait_frame_waitq cfg ts evs).2.1.req_get = ts.req_get := by
  have h := wait_event_req_get cfg evs ts
  unfold wait_frame_waitq
  split
  · rfl
  · split
    · rename_i heq; rw [heq] at h; exact h
    · rename_i heq; rw [heq] at h; exact h
    · rename_i heq; rw [heq] at h
      dsimp only
      split
      · exact h
      · split <;> exact h


theorem get_frame_deliver_frame (ts : bu21150_data) (data : bu21150_ioctl_get_frame_data)
    (uaccess : Nat → Bool) (buf : List Nat) (tv : timeval) (ts' : bu21150_data)
    (h : get_frame_deliver ts data uaccess = (Outcome.frame buf tv, ts')) :
    ts'.frame_get = ts.frame_get ∧ ts'.req_get = ts.req_get ∧
      buf = ts'.frame.take ts'.frame_get.size ∧ tv = ts'.tv := by
  unfold get_frame_deliver at h
  simp only at h
  split at h
  · simp at h
  · split at h
    · simp at h
    · simp only [Prod.mk.injEq, Outcome.frame.injEq] at h
      obtain ⟨⟨h1, h2⟩, h3⟩ := h
      subst h3
      refine ⟨?_, ?_, h1.symm, h2.symm⟩
      · split
        · unfold get_frame_timer_delete; split <;> rfl
        · rfl
      · split
        · unfold get_frame_timer_delete; split <;> rfl
        · rfl

theorem get_frame_loop_frame (cfg : Config) (data : bu21150_ioctl_get_frame_data)
    (uaccess : Nat → Bool) : ∀ (n : Nat) (ts : bu21150_data) (evs : List Event)
    (buf : List Nat) (tv : timeval) (ts' : bu21150_data),
    get_frame_loop cfg data uaccess n ts evs = (Outcome.frame buf tv, ts') →
    frame_data_bytes data = frame_data_bytes ts'.frame_get ∧ ts'.req_get = data ∧
      buf = ts'.frame.take ts'.frame_get.size ∧ tv = ts'.tv := by
  intro n
  induction n with
  | zero => intro ts evs buf tv ts' h; simp [get_frame_loop] at h
  | succ n ih =>
    intro ts evs buf tv ts' h
    unfold get_frame_loop at h
    have hreq := wait_frame_req_get cfg { ts with req_get := data } evs
    split at h
    · simp at h
    · rename_i ret ts1 rest heq
      rw [heq] at hreq
      simp only at hreq
      split at h
      · simp at h
      · split at h
        · exact ih ts1 rest buf tv ts' h
        · rename_i hsame
          obtain ⟨h1, h2, h3, h4⟩ := get_frame_deliver_frame ts1 data uaccess buf tv ts' h
          refine ⟨?_, ?_, h3, h4⟩
          · rw [h1]; exact (is_same_ne_zero_iff _ _).mp hsame
          · rw [h2]; exact hreq


/-- C1: whenever get-frame returns a frame, the published request descriptor is byte-identical
to the caller's request, the pending request is the caller's request, and what is copied out is
the published buffer cut to the published size together with the published timestamp; and
whenever a wake is consumed (the wait returns `0`) while the published descriptor differs from
the request, the call goes round the loop again instead of delivering: the wait flag is back to
WAITING, the request is installed, and with no further event and no cancellation the caller is
asleep again. -/
theorem get_frame_returns_only_matching_frame (cfg : Config) (ts : bu21150_data)
    (data : bu21150_ioctl_get_frame_data) (jiffies : Nat) (uaccess : Nat → Bool)
    (evs : List Event) :
    (∀ buf tv ts',
      bu21150_ioctl_get_frame cfg ts (.ok data) jiffies uaccess evs
        = (Outcome.frame buf tv, ts') →
      frame_data_bytes data = frame_data_bytes ts'.frame_get ∧ ts'.req_get = data ∧
        buf = ts'.frame.take ts'.frame_get.size ∧ tv = ts'.tv) ∧
    (∀ n ts1 rest,
      wait_frame_waitq cfg { ts with req_get := data } evs = (some Ret.ok, ts1, rest) →
      frame_data_bytes data ≠ frame_data_bytes ts1.frame_get →
      get_frame_loop cfg data uaccess (n + 1) ts evs
          = get_frame_loop cfg data uaccess n ts1 rest ∧
        ts1.frame_waitq_flag = WAITQ_WAIT ∧ ts1.req_get = data ∧
        (rest = [] → ts1.g_bu21150_ioctl_unblock ≠ 1 →
          get_frame_loop cfg data uaccess (n + 2) ts evs = (Outcome.asleep, ts1))) := by
  constructor
  · intro buf tv ts' h
    unfold bu21150_ioctl_get_frame at h
    simp only at h
    split at h
    · simp at h
    · exact get_frame_loop_frame cfg data uaccess _ _ _ buf tv ts' h
  · intro n ts1 rest hw hne
    have hsame : is_same_bu21150_ioctl_get_frame_data data ts1.frame_get = 0 := by
      by_contra hc
      exact hne ((is_same_ne_zero_iff _ _).mp hc)
    have hstep : ∀ m, get_frame_loop cfg data uaccess (m + 1) ts evs
        = get_frame_loop cfg data uaccess m ts1 rest := by
      intro m
      conv => lhs; unfold get_frame_loop
      rw [hw]
      simp [hsame]
    have hreq : ts1.req_get = data := by
      have := wait_frame_req_get cfg { ts with req_get := data } evs
      rw [hw] at this
      exact this
    have hflag : ts1.frame_waitq_flag = WAITQ_WAIT := by
      unfold wait_frame_waitq at hw
      split at hw
      · simp at hw
      · split at hw
        · simp at hw
        · simp at hw
        · simp only at hw
          split at hw
          · simp at hw
          · split at hw
            · simp at hw
            · simp only [Prod.mk.injEq, true_and] at hw
              rw [← hw.1]
    refine ⟨hstep n, hflag, hreq, ?_⟩
    intro hrest hunb
    rw [hstep (n + 1)]
    subst hrest
    have hts1 : { ts1 with req_get := data } = ts1 := by
      cases ts1; simp only at hreq; subst hreq; rfl
    unfold get_frame_loop
    rw [hts1]
    unfold wait_frame_waitq
    simp [hunb, wait_event_interruptible, hflag, WAITQ_WAIT, WAITQ_WAKEUP]

theorem get_frame_returns_only_matching_frame_witness :
    (bu21150_ioctl_get_frame cfg_le opened (.ok req_a) 0 all_ok
        [Event.irq ⟨0, [0, 0, 0, 1, 2, 3, 4]⟩ ⟨5, 6⟩]).1 = Outcome.frame [2, 1, 4, 3] ⟨5, 6⟩ ∧
      frame_data_bytes req_a = frame_data_bytes
        (bu21150_ioctl_get_frame cfg_le opened (.ok req_a) 0 all_ok
          [Event.irq ⟨0, [0, 0, 0, 1, 2, 3, 4]⟩ ⟨5, 6⟩]).2.frame_get ∧
      stale_a.frame_get = req_a ∧ stale_a.frame_waitq_flag = WAITQ_WAKEUP ∧
      get_frame_loop cfg_le req_b all_ok 2 stale_a [] =
        (Outcome.asleep, (wait_frame_waitq cfg_le { stale_a with req_get := req_b } []).2.1) :=
  ⟨by decide,
   ((get_frame_returns_only_matching_frame cfg_le opened req_a 0 all_ok
      [Event.irq ⟨0, [0, 0, 0, 1, 2, 3, 4]⟩ ⟨5, 6⟩]).1 [2, 1, 4, 3] ⟨5, 6⟩ _
        (Prod.ext (by decide) rfl)).1,
   by decide, by decide,
   ((get_frame_returns_only_matching_frame cfg_le stale_a req_b 0 all_ok []).2 0
      (wait_frame_waitq cfg_le { stale_a with req_get := req_b } []).2.1 []
      (Prod.ext (by decide) (Prod.ext rfl (by decide))) (by decide)).2.2.2 rfl (by decide)⟩



theorem swap_words_length (cfg : Config) : ∀ (n : Nat) (l : List Nat),
    (swap_words cfg n l).length = l.length := by
  intro n
  induction n with
  | zero => intro l; simp [swap_words]
  | succ n ih =>
    intro l
    match l with
    | [] => simp [swap_words]
    | [a] => simp [swap_words]
    | a :: b :: rest => simp [swap_words, ih]

theorem swap_words_word (cfg : Config) : ∀ (n : Nat) (l : List Nat) (i : Nat),
    i < n → 2 * i + 1 < l.length →
    host16 cfg ((swap_words cfg n l).getD (2 * i) 0) ((swap_words cfg n l).getD (2 * i + 1) 0)
      = be16 (l.getD (2 * i) 0) (l.getD (2 * i + 1) 0) := by
  intro n
  induction n with
  | zero => intro l i h; omega
  | succ n ih =>
    intro l i hi hl
    match l with
    | [] => simp at hl
    | [a] => simp at hl
    | a :: b :: rest =>
      cases i with
      | zero =>
        simp only [swap_words, be16_to_cpus, host16, be16]
        cases cfg.big_endian <;> simp
        omega
      | succ i =>
        have e1 : 2 * (i + 1) = (2 * i + 1) + 1 := by omega
        have e2 : 2 * (i + 1) + 1 = (2 * i + 1 + 1) + 1 := by omega
        simp only [swap_words, e1, List.getD_cons_succ]
        simp only [List.length_cons] at hl
        exact ih rest i (by omega) (by omega)

theorem swap_words_drop (cfg : Config) : ∀ (n : Nat) (l : List Nat),
    (swap_words cfg n l).drop (2 * n) = l.drop (2 * n) := by
  intro n
  induction n with
  | zero => intro l; simp [swap_words]
  | succ n ih =>
    intro l
    match l with
    | [] => simp [swap_words]
    | [a] => simp [swap_words]
    | a :: b :: rest =>
      have e : 2 * (n + 1) = 2 * n + 1 + 1 := by omega
      simp only [swap_words, e, List.drop_succ_cons]
      exact ih rest

theorem swap_2byte_length (cfg : Config) (l : List Nat) (n : Nat) :
    (swap_2byte cfg l n).length = l.length := by
  unfold swap_2byte
  split
  · rfl
  · exact swap_words_length cfg _ _

theorem swap_2byte_drop (cfg : Config) (l : List Nat) (n : Nat) :
    (swap_2byte cfg l n).drop n = l.drop n := by
  unfold swap_2byte
  split
  · rfl
  · rename_i h
    have e : 2 * (n / 2) = n := by omega
    have := swap_words_drop cfg (n / 2) l
    rw [e] at this
    exact this

theorem spi_rx_buf_length (len : Nat) (rx : List Nat) : (spi_rx_buf len rx).length = len := by
  simp [spi_rx_buf]

theorem memcpy_exact (dst src : List Nat) (n : Nat) (h : src.length = n) :
    memcpy dst src n = src ++ dst.drop n := by
  unfold memcpy
  rw [← h]
  simp

theorem memcpy_full (dst src : List Nat) (n : Nat) (hs : src.length = n) (hd : dst.length = n) :
    memcpy dst src n = src := by
  rw [memcpy_exact dst src n hs, List.drop_of_length_le (by omega)]
  simp

/-- The payload of a read of `n` bytes: what the bus delivered after the three bytes received
while the header was being sent. -/
theorem rx_payload_length (n : Nat) (rx : List Nat) :
    ((spi_rx_buf (n + SPI_HEADER_SIZE) rx).drop SPI_HEADER_SIZE).length = n := by
  simp [spi_rx_buf_length]

theorem irq_work_publish (cfg : Config) (ts : bu21150_data) (reply : spi_reply) (now : timeval)
    (h0 : ts.reset_flag = 0) :
    (bu21150_irq_work_func cfg ts reply now).frame_work
        = swap_2byte cfg (memcpy ts.frame_work
            ((spi_rx_buf (ts.req_get.size % 2^16 + SPI_HEADER_SIZE) reply.rx).drop
              SPI_HEADER_SIZE) (ts.req_get.size % 2^16)) (ts.req_get.size % 2^16) ∧
      (bu21150_irq_work_func cfg ts reply now).frame
        = memcpy ts.frame (bu21150_irq_work_func cfg ts reply now).frame_work MAX_FRAME_SIZE ∧
      (bu21150_irq_work_func cfg ts reply now).frame_get = ts.req_get ∧
      (bu21150_irq_work_func cfg ts reply now).tv = now ∧
      (bu21150_irq_work_func cfg ts reply now).frame_waitq_flag = WAITQ_WAKEUP := by
  simp [bu21150_irq_work_func, bu21150_read_register, h0, enable_irq, wake_up_frame_waitq,
    copy_frame]

/-- C2 (amended): a capture cycle that runs with reset-in-progress clear, a pending size `n` of
at most `MAX_FRAME_SIZE` and buffers of the declared size leaves the published buffer equal to
the whole working buffer (`MAX_FRAME_SIZE` bytes). When `n` is even, each 16-bit word of its
first `n` bytes, read in host order, is the big-endian word of the bus payload at the same
place; when `n` is odd, its first `n` bytes are the bus payload in wire order, unconverted.
The bytes from `n` on are those the working buffer had before. The published descriptor is
the request pending when the cycle started, the timestamp is the clock reading, and the wait
flag is SIGNALED. -/
theorem capture_publishes_working_buffer (cfg : Config) (ts : bu21150_data) (reply : spi_reply)
    (now : timeval) (hsize : ts.req_get.size ≤ MAX_FRAME_SIZE) (hreset : ts.reset_flag = 0)
    (hbuf : buffers_ok ts) :
    let n := ts.req_get.size
    let payload := (spi_rx_buf (n + SPI_HEADER_SIZE) reply.rx).drop SPI_HEADER_SIZE
    let ts' := bu21150_irq_work_func cfg ts reply now
    ts'.frame = ts'.frame_work ∧ ts'.frame.length = MAX_FRAME_SIZE ∧
      (n % 2 = 0 → ∀ i, 2 * i + 1 < n →
        host16 cfg (ts'.frame.getD (2 * i) 0) (ts'.frame.getD (2 * i + 1) 0)
          = be16 (payload.getD (2 * i) 0) (payload.getD (2 * i + 1) 0)) ∧
      (n % 2 = 1 → ts'.frame.take n = payload) ∧
      ts'.frame.drop n = ts.frame_work.drop n ∧
      ts'.frame_get = ts.req_get ∧ ts'.tv = now ∧ ts'.frame_waitq_flag = WAITQ_WAKEUP := by
  intro n payload ts'
  obtain ⟨hfw, hf, hget, htv, hflag⟩ := irq_work_publish cfg ts reply now hreset
  obtain ⟨hlf, hlw, _⟩ := hbuf
  have hn16 : ts.req_get.size % 2^16 = n := by
    have : n ≤ 8208 := hsize
    show n % 2^16 = n
    omega
  rw [hn16] at hfw
  have hpl : payload.length = n := rx_payload_length n reply.rx
  have hmc : memcpy ts.frame_work payload n = payload ++ ts.frame_work.drop n :=
    memcpy_exact _ _ _ hpl
  have hfw' : ts'.frame_work = swap_2byte cfg (payload ++ ts.frame_work.drop n) n := by
    rw [← hmc]; exact hfw
  have hlen : ts'.frame_work.length = MAX_FRAME_SIZE := by
    rw [hfw', swap_2byte_length, List.length_append, hpl, List.length_drop, hlw]
    have : n ≤ MAX_FRAME_SIZE := hsize
    omega
  have hframe : ts'.frame = ts'.frame_work := by
    show (bu21150_irq_work_func cfg ts reply now).frame = _
    rw [hf]
    exact memcpy_full _ _ _ hlen hlf
  refine ⟨hframe, by rw [hframe]; exact hlen, ?_, ?_, ?_, hget, htv, hflag⟩
  · intro heven i hi
    rw [hframe, hfw']
    have hsw : swap_2byte cfg (payload ++ ts.frame_work.drop n) n
        = swap_words cfg (n / 2) (payload ++ ts.frame_work.drop n) := by
      unfold swap_2byte
      rw [if_neg (by omega)]
    rw [hsw, swap_words_word cfg (n / 2) _ i (by omega)
      (by rw [List.length_append, hpl]; omega)]
    rw [List.getD_append _ _ _ _ (by omega), List.getD_append _ _ _ _ (by omega)]
  · intro hodd
    rw [hframe, hfw']
    unfold swap_2byte
    rw [if_pos hodd, List.take_left' hpl]
  · rw [hframe, hfw', swap_2byte_drop, List.drop_left' hpl]

theorem buffers_ok_probed : buffers_ok probed := by
  simp [buffers_ok, probed]

theorem buffers_ok_of_eq (ts ts0 : bu21150_data) (h1 : ts.frame = ts0.frame)
    (h2 : ts.frame_work = ts0.frame_work) (h3 : ts.spi_buf = ts0.spi_buf)
    (h : buffers_ok ts0) : buffers_ok ts := by
  unfold buffers_ok at *
  rw [h1, h2, h3]
  exact h

theorem capture_publishes_working_buffer_witness :
    pending_a.req_get.size = 4 ∧ pending_a.reset_flag = 0 ∧ buffers_ok pending_a ∧
      (bu21150_irq_work_func cfg_le pending_a ⟨0, [0, 0, 0, 1, 2, 3, 4]⟩ ⟨5, 6⟩).frame.take 4
        = [2, 1, 4, 3] ∧
      (bu21150_irq_work_func cfg_le pending_a ⟨0, [0, 0, 0, 1, 2, 3, 4]⟩ ⟨5, 6⟩).frame
        = (bu21150_irq_work_func cfg_le pending_a ⟨0, [0, 0, 0, 1, 2, 3, 4]⟩ ⟨5, 6⟩).frame_work ∧
      (bu21150_irq_work_func cfg_le pending_a ⟨0, [0, 0, 0, 1, 2, 3, 4]⟩ ⟨5, 6⟩).frame_get
        = req_a :=
  ⟨by decide, by decide, buffers_ok_of_eq _ probed rfl rfl rfl buffers_ok_probed, by decide,
   (capture_publishes_working_buffer cfg_le pending_a ⟨0, [0, 0, 0, 1, 2, 3, 4]⟩ ⟨5, 6⟩
      (by decide) (by decide) (buffers_ok_of_eq _ probed rfl rfl rfl buffers_ok_probed)).1,
   (capture_publishes_working_buffer cfg_le pending_a ⟨0, [0, 0, 0, 1, 2, 3, 4]⟩ ⟨5, 6⟩
      (by decide) (by decide)
      (buffers_ok_of_eq _ probed rfl rfl rfl buffers_ok_probed)).2.2.2.2.2.1⟩

/-- C2 (counterexample): on a little-endian host, with a pending request of three bytes and
the bus delivering `1, 2, 3`, the published buffer starts `1, 2, 3`: its first 16-bit word read
in host order is not the big-endian word `0x0102` of the payload. -/
theorem capture_odd_size_keeps_wire_order :
    pending_odd.req_get.size = 3 ∧ 3 ≤ MAX_FRAME_SIZE ∧ pending_odd.reset_flag = 0 ∧
      buffers_ok pending_odd ∧
      (spi_rx_buf (3 + SPI_HEADER_SIZE) [0, 0, 0, 1, 2, 3]).drop SPI_HEADER_SIZE = [1, 2, 3] ∧
      (bu21150_irq_work_func cfg_le pending_odd ⟨0, [0, 0, 0, 1, 2, 3]⟩ ⟨5, 6⟩).frame.take 3
        = [1, 2, 3] ∧
      host16 cfg_le
          ((bu21150_irq_work_func cfg_le pending_odd ⟨0, [0, 0, 0, 1, 2, 3]⟩ ⟨5, 6⟩).frame.getD
            0 0)
          ((bu21150_irq_work_func cfg_le pending_odd ⟨0, [0, 0, 0, 1, 2, 3]⟩ ⟨5, 6⟩).frame.getD
            1 0)
        ≠ be16 1 2 :=
  ⟨by decide, by decide, by decide, buffers_ok_of_eq _ probed rfl rfl rfl buffers_ok_probed,
   by decide, by decide, by decide⟩


theorem wait_event_asleep (cfg : Config) (pre : List Event) : ∀ (ts ts1 : bu21150_data)
    (r : List Event), wait_event_interruptible cfg ts pre = (Wake.asleep, ts1, r) →
    r = [] ∧ ts1.frame_waitq_flag ≠ WAITQ_WAKEUP ∧
      ∀ evs, wait_event_interruptible cfg ts (pre ++ evs) = wait_event_interruptible cfg ts1 evs := by
  induction pre with
  | nil =>
    intro ts ts1 r h
    simp only [wait_event_interruptible] at h
    split at h
    · simp at h
    · rename_i hflag
      simp only [Prod.mk.injEq, true_and] at h
      obtain ⟨h1, h2⟩ := h
      subst h1
      exact ⟨h2.symm, hflag, fun evs => rfl⟩
  | cons e rest ih =>
    intro ts ts1 r h
    simp only [wait_event_interruptible] at h
    split at h
    · simp at h
    · rename_i hflag
      cases e with
      | signal => simp at h
      | _ =>
        all_goals
          simp only at h
          obtain ⟨h1, h2, h3⟩ := ih _ ts1 r h
          refine ⟨h1, h2, ?_⟩
          intro evs
          simp only [List.cons_append, wait_event_interruptible, if_neg hflag]
          exact h3 evs

theorem wait_event_woken (cfg : Config) (ts : bu21150_data) (evs : List Event)
    (h : ts.frame_waitq_flag = WAITQ_WAKEUP) :
    wait_event_interruptible cfg ts evs = (Wake.woken, ts, evs) := by
  cases evs <;> simp [wait_event_interruptible, h]

/-- C3 (amended): a wait entered with the cancel flag set returns Unblock at once, with the
device (the wait flag included) and the pending events untouched. A wait entered with the flag
clear that is still asleep after the events `pre` is woken by `unblock()` itself, whatever
follows: it returns Unblock with the cancel flag set and the wait flag back to WAITING, unless
timeout mode is enabled and timeout-fired is set at that moment, in which case it returns
Timeout and clears timer-armed and timeout-fired. -/
theorem unblock_ends_wait (cfg : Config) (ts ts1 : bu21150_data)
    (pre r rest : List Event) :
    (ts.g_bu21150_ioctl_unblock = 1 →
      ∀ evs, wait_frame_waitq cfg ts evs = (some Ret.BU21150_UNBLOCK, ts, evs)) ∧
    (ts.g_bu21150_ioctl_unblock ≠ 1 →
      wait_event_interruptible cfg ts pre = (Wake.asleep, ts1, r) →
      (¬ (ts1.timeout_enb_flag = 1 ∧ ts1.timeout_flag = 1) →
        wait_frame_waitq cfg ts (pre ++ Event.unblock :: rest)
          = (some Ret.BU21150_UNBLOCK,
              { (bu21150_ioctl_unblock ts1).2 with frame_waitq_flag := WAITQ_WAIT }, rest)) ∧
      (ts1.timeout_enb_flag = 1 ∧ ts1.timeout_flag = 1 →
        wait_frame_waitq cfg ts (pre ++ Event.unblock :: rest)
          = (some Ret.BU21150_TIMEOUT,
              { (bu21150_ioctl_unblock ts1).2 with
                frame_waitq_flag := WAITQ_WAIT, set_timer_flag := 0, timeout_flag := 0 },
              rest))) := by
  constructor
  · intro h evs
    simp [wait_frame_waitq, h]
  · intro hg hpre
    obtain ⟨_, hflag, happ⟩ := wait_event_asleep cfg pre ts ts1 r hpre
    have hw : wait_event_interruptible cfg ts (pre ++ Event.unblock :: rest)
        = (Wake.woken, (bu21150_ioctl_unblock ts1).2, rest) := by
      rw [happ]
      simp only [wait_event_interruptible, if_neg hflag, Event.apply]
      exact wait_event_woken cfg _ rest rfl
    constructor
    · intro hno
      unfold wait_frame_waitq
      rw [if_neg hg, hw]
      simp only [bu21150_ioctl_unblock, wake_up_frame_waitq]
      rw [if_neg hno]
      simp
    · intro hyes
      unfold wait_frame_waitq
      rw [if_neg hg, hw]
      simp only [bu21150_ioctl_unblock, wake_up_frame_waitq]
      rw [if_pos hyes]

theorem unblock_ends_wait_witness :
    cancelled.g_bu21150_ioctl_unblock = 1 ∧
      wait_frame_waitq cfg_le cancelled [Event.irq ⟨0, []⟩ ⟨0, 0⟩]
        = (some Ret.BU21150_UNBLOCK, cancelled, [Event.irq ⟨0, []⟩ ⟨0, 0⟩]) ∧
      pending_a.g_bu21150_ioctl_unblock ≠ 1 ∧
      (wait_event_interruptible cfg_le pending_a [Event.set_scan_mode (.ok 1)]).1 = Wake.asleep ∧
      (wait_frame_waitq cfg_le pending_a
        ([Event.set_scan_mode (.ok 1)] ++ Event.unblock :: [Event.irq ⟨0, []⟩ ⟨0, 0⟩])).1
        = some Ret.BU21150_UNBLOCK :=
  ⟨by decide,
   (unblock_ends_wait cfg_le cancelled cancelled [] [] []).1 (by decide) _,
   by decide, by decide,
   congrArg Prod.fst
    (((unblock_ends_wait cfg_le pending_a
      (wait_event_interruptible cfg_le pending_a [Event.set_scan_mode (.ok 1)]).2.1
      [Event.set_scan_mode (.ok 1)] [] [Event.irq ⟨0, []⟩ ⟨0, 0⟩]).2 (by decide)
      (Prod.ext (by decide) (Prod.ext rfl (by decide)))).1 (by decide))⟩

/-- C3 (counterexample): in the state `stale_timeout` the cancel flag is clear and a get-frame
call falls asleep; `unblock()` then wakes it, and the call returns Timeout, not Unblock. The
same holds of `wait_frame_waitq` itself. -/
theorem unblock_of_blocked_call_returns_timeout :
    stale_timeout.g_bu21150_ioctl_unblock = 0 ∧
      (bu21150_ioctl_get_frame cfg_le stale_timeout (.ok req_a) 3000 all_ok []).1
        = Outcome.asleep ∧
      (bu21150_ioctl_get_frame cfg_le stale_timeout (.ok req_a) 3000 all_ok [Event.unblock]).1
        = Outcome.ret Ret.BU21150_TIMEOUT ∧
      (wait_frame_waitq cfg_le stale_timeout []).1 = none ∧
      (wait_frame_waitq cfg_le stale_timeout [Event.unblock]).1 = some Ret.BU21150_TIMEOUT ∧
      (wait_frame_waitq cfg_le stale_timeout [Event.unblock]).1 ≠ some Ret.BU21150_UNBLOCK := by
  decide


theorem irq_work_suppressed (cfg : Config) (ts : bu21150_data) (reply : spi_reply)
    (now : timeval) (h1 : ts.reset_flag ≠ 0) :
    (bu21150_irq_work_func cfg ts reply now).frame = ts.frame ∧
      (bu21150_irq_work_func cfg ts reply now).frame_get = ts.frame_get ∧
      (bu21150_irq_work_func cfg ts reply now).tv = ts.tv ∧
      (bu21150_irq_work_func cfg ts reply now).frame_waitq_flag = ts.frame_waitq_flag ∧
      (bu21150_irq_work_func cfg ts reply now).req_get = ts.req_get ∧
      (bu21150_irq_work_func cfg ts reply now).reset_flag = 0 := by
  simp [bu21150_irq_work_func, bu21150_read_register, h1, enable_irq]

theorem memcpy_keeps_length (dst src : List Nat) (n : Nat) (h : n ≤ dst.length) :
    (memcpy dst src n).length = dst.length := by
  unfold memcpy
  rw [List.length_append, List.length_take, List.length_drop]
  omega

theorem irq_work_keeps_sizes (cfg : Config) (ts : bu21150_data) (reply : spi_reply)
    (now : timeval) (hmax : ts.req_get.size ≤ MAX_FRAME_SIZE) (hb : buffers_ok ts) :
    buffers_ok (bu21150_irq_work_func cfg ts reply now) := by
  obtain ⟨hf, hw, hs⟩ := hb
  have h16 : ts.req_get.size % 2^16 = ts.req_get.size := by
    have : ts.req_get.size ≤ 8208 := hmax
    omega
  have hfw : ∀ P : List Nat,
      (swap_2byte cfg (memcpy ts.frame_work P ts.req_get.size) ts.req_get.size).length
        = MAX_FRAME_SIZE := by
    intro P
    rw [swap_2byte_length, memcpy_keeps_length _ _ _ (by rw [hw]; exact hmax), hw]
  unfold buffers_ok bu21150_irq_work_func
  simp only [enable_irq, bu21150_read_register, h16]
  split
  · simp only [wake_up_frame_waitq, copy_frame]
    refine ⟨?_, hfw _, hs⟩
    rw [memcpy_keeps_length _ _ _ (by rw [hf]), hf]
  · exact ⟨hf, hfw _, hs⟩

theorem capture_cycle_publishes (cfg : Config) (ts : bu21150_data) (reply : spi_reply)
    (now : timeval) (hsize : ts.req_get.size ≤ MAX_FRAME_SIZE) (hreset : ts.reset_flag = 0)
    (hbuf : buffers_ok ts) :
    let n := ts.req_get.size
    let payload := (spi_rx_buf (n + SPI_HEADER_SIZE) reply.rx).drop SPI_HEADER_SIZE
    let ts' := bu21150_irq_work_func cfg ts reply now
    ts'.frame = ts'.frame_work ∧ ts'.frame.length = MAX_FRAME_SIZE ∧
      (n % 2 = 0 → ∀ i, 2 * i + 1 < n →
        host16 cfg (ts'.frame.getD (2 * i) 0) (ts'.frame.getD (2 * i + 1) 0)
          = be16 (payload.getD (2 * i) 0) (payload.getD (2 * i + 1) 0)) ∧
      (n % 2 = 1 → ts'.frame.take n = payload) ∧
      ts'.frame.drop n = ts.frame_work.drop n ∧
      ts'.frame_get = ts.req_get ∧ ts'.tv = now ∧ ts'.frame_waitq_flag = WAITQ_WAKEUP := by
  intro n payload ts'
  obtain ⟨hfw, hf, hget, htv, hflag⟩ := irq_work_publish cfg ts reply now hreset
  obtain ⟨hlf, hlw, _⟩ := hbuf
  have hn16 : ts.req_get.size % 2^16 = n := by
    have : n ≤ 8208 := hsize
    show n % 2^16 = n
    omega
  rw [hn16] at hfw
  have hpl : payload.length = n := rx_payload_length n reply.rx
  have hmc : memcpy ts.frame_work payload n = payload ++ ts.frame_work.drop n :=
    memcpy_exact _ _ _ hpl
  have hfw' : ts'.frame_work = swap_2byte cfg (payload ++ ts.frame_work.drop n) n := by
    rw [← hmc]; exact hfw
  have hlen : ts'.frame_work.length = MAX_FRAME_SIZE := by
    rw [hfw', swap_2byte_length, List.length_append, hpl, List.length_drop, hlw]
    have : n ≤ MAX_FRAME_SIZE := hsize
    omega
  have hframe : ts'.frame = ts'.frame_work := by
    show (bu21150_irq_work_func cfg ts reply now).frame = _
    rw [hf]
    exact memcpy_full _ _ _ hlen hlf
  refine ⟨hframe, by rw [hframe]; exact hlen, ?_, ?_, ?_, hget, htv, hflag⟩
  · intro heven i hi
    rw [hframe, hfw']
    have hsw : swap_2byte cfg (payload ++ ts.frame_work.drop n) n
        = swap_words cfg (n / 2) (payload ++ ts.frame_work.drop n) := by
      unfold swap_2byte
      rw [if_neg (by omega)]
    rw [hsw, swap_words_word cfg (n / 2) _ i (by omega)
      (by rw [List.length_append, hpl]; omega)]
    rw [List.getD_append _ _ _ _ (by omega), List.getD_append _ _ _ _ (by omega)]
  · intro hodd
    rw [hframe, hfw']
    unfold swap_2byte
    rw [if_pos hodd, List.take_left' hpl]
  · rw [hframe, hfw', swap_2byte_drop, List.drop_left' hpl]

/-- C4: `reset(LOW)` succeeds, sets reset-in-progress and puts the wait flag to WAITING. The
capture cycle that follows leaves the published buffer, the published descriptor, the
timestamp, the wait flag and the pending request as they were and clears reset-in-progress.
The capture cycle after that one publishes and signals: the published descriptor is the
pending request, the timestamp is the clock reading, the wait flag is SIGNALED, and the
published buffer is the working buffer copied over `MAX_FRAME_SIZE` bytes. When the pending
size `n` is at most `MAX_FRAME_SIZE` and the byte arrays have their declared size, that is the
normal publication of what the bus delivered in this second cycle: the published buffer equals
the whole working buffer, and its first `n` bytes are the second cycle's bus payload, each
big-endian 16-bit word in host order when `n` is even, in wire order when `n` is odd. -/
theorem reset_suppresses_one_capture (cfg : Config) (ts : bu21150_data)
    (reply1 reply2 : spi_reply) (now1 now2 : timeval) :
    let s1 := (bu21150_ioctl_reset ts BU21150_RESET_LOW).2
    let s2 := bu21150_irq_work_func cfg s1 reply1 now1
    let s3 := bu21150_irq_work_func cfg s2 reply2 now2
    let n := ts.req_get.size
    let payload := (spi_rx_buf (n + SPI_HEADER_SIZE) reply2.rx).drop SPI_HEADER_SIZE
    (bu21150_ioctl_reset ts BU21150_RESET_LOW).1 = Ret.ok ∧
      s1.reset_flag = 1 ∧ s1.frame_waitq_flag = WAITQ_WAIT ∧
      s2.frame = s1.frame ∧ s2.frame_get = s1.frame_get ∧ s2.tv = s1.tv ∧
      s2.frame_waitq_flag = s1.frame_waitq_flag ∧ s2.reset_flag = 0 ∧
      s3.frame = memcpy s2.frame s3.frame_work MAX_FRAME_SIZE ∧
      s3.frame_get = s2.req_get ∧ s3.tv = now2 ∧ s3.frame_waitq_flag = WAITQ_WAKEUP ∧
      s2.req_get = ts.req_get ∧ s3.frame_get = ts.req_get ∧
      (n ≤ MAX_FRAME_SIZE → buffers_ok ts →
        s3.frame = s3.frame_work ∧ s3.frame.length = MAX_FRAME_SIZE ∧
        (n % 2 = 0 → ∀ i, 2 * i + 1 < n →
          host16 cfg (s3.frame.getD (2 * i) 0) (s3.frame.getD (2 * i + 1) 0)
            = be16 (payload.getD (2 * i) 0) (payload.getD (2 * i + 1) 0)) ∧
        (n % 2 = 1 → s3.frame.take n = payload) ∧
        s3.frame.drop n = s2.frame_work.drop n) := by
  intro s1 s2 s3 n payload
  have hr : s1.reset_flag = 1 := by
    simp [s1, bu21150_ioctl_reset]
  have hw : s1.frame_waitq_flag = WAITQ_WAIT := by
    simp [s1, bu21150_ioctl_reset]
  have hret : (bu21150_ioctl_reset ts BU21150_RESET_LOW).1 = Ret.ok := by
    simp [bu21150_ioctl_reset]
  have hq1 : s1.req_get = ts.req_get := by
    simp [s1, bu21150_ioctl_reset]
  have hb1 : buffers_ok ts → buffers_ok s1 := by
    intro hb
    simpa [s1, bu21150_ioctl_reset, buffers_ok] using hb
  obtain ⟨a1, a2, a3, a4, a5, a6⟩ :=
    irq_work_suppressed cfg s1 reply1 now1 (by rw [hr]; decide)
  obtain ⟨_, b2, b3, b4, b5⟩ := irq_work_publish cfg s2 reply2 now2 a6
  have hq2 : s2.req_get = ts.req_get := a5.trans hq1
  refine ⟨hret, hr, hw, a1, a2, a3, a4, a6, b2, b3, b4, b5, hq2, b3.trans hq2, ?_⟩
  intro hn hb
  have hb2 : buffers_ok s2 :=
    irq_work_keeps_sizes cfg s1 reply1 now1 (by rw [hq1]; exact hn) (hb1 hb)
  have hn2 : s2.req_get.size = n := by rw [hq2]
  have key := capture_cycle_publishes cfg s2 reply2 now2 (by rw [hn2]; exact hn) a6 hb2
  simp only [hn2] at key
  obtain ⟨k1, k2, k3, k4, k5, _⟩ := key
  exact ⟨k1, k2, k3, k4, k5⟩

theorem reset_suppresses_one_capture_witness :
    pending_a.req_get.size = 4 ∧
      (bu21150_irq_work_func cfg_le
        (bu21150_irq_work_func cfg_le (bu21150_ioctl_reset pending_a BU21150_RESET_LOW).2
          ⟨0, [0, 0, 0, 9, 8, 7, 6]⟩ ⟨1, 1⟩)
        ⟨0, [0, 0, 0, 1, 2, 3, 4]⟩ ⟨5, 6⟩).frame.take 4 = [2, 1, 4, 3] ∧
      (bu21150_irq_work_func cfg_le (bu21150_ioctl_reset pending_a BU21150_RESET_LOW).2
          ⟨0, [0, 0, 0, 9, 8, 7, 6]⟩ ⟨1, 1⟩).frame.take 4 = [0, 0, 0, 0] ∧
      (bu21150_irq_work_func cfg_le
        (bu21150_irq_work_func cfg_le (bu21150_ioctl_reset pending_a BU21150_RESET_LOW).2
          ⟨0, [0, 0, 0, 9, 8, 7, 6]⟩ ⟨1, 1⟩)
        ⟨0, [0, 0, 0, 1, 2, 3, 4]⟩ ⟨5, 6⟩).frame
        = (bu21150_irq_work_func cfg_le
            (bu21150_irq_work_func cfg_le (bu21150_ioctl_reset pending_a BU21150_RESET_LOW).2
              ⟨0, [0, 0, 0, 9, 8, 7, 6]⟩ ⟨1, 1⟩)
            ⟨0, [0, 0, 0, 1, 2, 3, 4]⟩ ⟨5, 6⟩).frame_work :=
  ⟨by decide, by decide, by decide,
   ((reset_suppresses_one_capture cfg_le pending_a ⟨0, [0, 0, 0, 9, 8, 7, 6]⟩
      ⟨0, [0, 0, 0, 1, 2, 3, 4]⟩ ⟨1, 1⟩ ⟨5, 6⟩).2.2.2.2.2.2.2.2.2.2.2.2.2.2
      (by decide) (buffers_ok_of_eq _ probed rfl rfl rfl buffers_ok_probed)).1⟩

/-- C6: a get-frame request whose buffer handle is null, whose size is zero or exceeds
`MAX_FRAME_SIZE`, or whose timestamp handle is null, and a raw bus read or write whose buffer
handle is null or whose count is zero or exceeds `MAX_FRAME_SIZE`, returns `-EINVAL` and leaves
the whole device as it was: the pending request, the flags, the timer, the buffers and the log
of bus transfers are unchanged, nothing is copied out, and no event is consumed. -/
theorem invalid_arguments_rejected (cfg : Config) (ts : bu21150_data) :
    (∀ (data : bu21150_ioctl_get_frame_data) (jiffies : Nat) (uaccess : Nat → Bool)
        (evs : List Event),
      data.buf = 0 ∨ data.size = 0 ∨ MAX_FRAME_SIZE < data.size ∨ data.tv = 0 →
      bu21150_ioctl_get_frame cfg ts (.ok data) jiffies uaccess evs
        = (Outcome.ret Ret.EINVAL, ts)) ∧
    (∀ (data : bu21150_ioctl_spi_data) (reply : spi_reply) (uaccess : Nat → Bool),
      data.buf = 0 ∨ data.count = 0 ∨ MAX_FRAME_SIZE < data.count →
      bu21150_ioctl_spi_read cfg ts (.ok data) reply uaccess = (Ret.EINVAL, [], ts)) ∧
    (∀ (data : bu21150_ioctl_spi_data) (user : Option (List Nat)) (ret : Int),
      data.buf = 0 ∨ data.count = 0 ∨ MAX_FRAME_SIZE < data.count →
      bu21150_ioctl_spi_write cfg ts (.ok data) user ret = (Ret.EINVAL, ts)) := by
  refine ⟨?_, ?_, ?_⟩
  · intro data jiffies uaccess evs h
    simp only [bu21150_ioctl_get_frame, if_pos h]
  · intro data reply uaccess h
    simp only [bu21150_ioctl_spi_read, if_pos h]
  · intro data user ret h
    simp only [bu21150_ioctl_spi_write, if_pos h]

theorem invalid_arguments_rejected_witness :
    bu21150_ioctl_get_frame cfg_le timeout_on (.ok ⟨4096, 8209, 8192⟩) 0 all_ok
        [Event.irq ⟨0, [0, 0, 0, 1, 2]⟩ ⟨5, 6⟩] = (Outcome.ret Ret.EINVAL, timeout_on) ∧
      bu21150_ioctl_spi_read cfg_le timeout_on (.ok ⟨1024, 0, 2⟩) ⟨0, [0, 0, 0, 1, 2]⟩ all_ok
        = (Ret.EINVAL, [], timeout_on) ∧
      bu21150_ioctl_spi_write cfg_le timeout_on (.ok ⟨1024, 4096, 0⟩) (some [1, 2]) 0
        = (Ret.EINVAL, timeout_on) :=
  ⟨(invalid_arguments_rejected cfg_le timeout_on).1 ⟨4096, 8209, 8192⟩ 0 all_ok _
      (by decide),
   (invalid_arguments_rejected cfg_le timeout_on).2.1 ⟨1024, 0, 2⟩ _ all_ok (by decide),
   (invalid_arguments_rejected cfg_le timeout_on).2.2 ⟨1024, 4096, 0⟩ _ 0 (by decide)⟩


/-- C7 (amended): for every address and every odd size (a `u16`), `swap_2byte` leaves its
buffer as it is; `bu21150_read_register` still hands one transfer of `size + 3` bytes to the
bus and returns what the bus returns, the first `size` bytes of the destination become the
bus payload in wire order, and the bytes after them are unchanged; `bu21150_write_register`
still hands one transfer of `size + 3` bytes to the bus, the header followed by the caller's
bytes in the caller's order, and returns what the bus returns. -/
theorem odd_size_transfers_unswapped (cfg : Config) (ts : bu21150_data) (addr size : Nat)
    (data : List Nat) (reply : spi_reply) (ret : Int)
    (hsize : size < 2^16) (hodd : size % 2 = 1) :
    swap_2byte cfg data size = data ∧
    (bu21150_read_register cfg ts addr size data reply).1 = reply.ret ∧
    (bu21150_read_register cfg ts addr size data reply).2.2.spi_log
      = ts.spi_log ++ [read_xfer addr size] ∧
    (read_xfer addr size).len = size + 3 ∧
    (bu21150_read_register cfg ts addr size data reply).2.1
      = (spi_rx_buf (size + SPI_HEADER_SIZE) reply.rx).drop SPI_HEADER_SIZE ++ data.drop size ∧
    (bu21150_read_register cfg ts addr size data reply).2.1.drop size = data.drop size ∧
    (bu21150_write_register cfg ts addr size data ret).1 = ret ∧
    (bu21150_write_register cfg ts addr size data ret).2.spi_log
      = ts.spi_log ++ [write_xfer cfg addr size data] ∧
    (write_xfer cfg addr size data).len = size + 3 ∧
    (size ≤ data.length →
      (write_xfer cfg addr size data).tx_buf
        = spi_header 0x02 (addr % 2^32) ++ data.take size) := by
  have h16 : size % 2^16 = size := Nat.mod_eq_of_lt hsize
  have hsw : ∀ l : List Nat, swap_2byte cfg l size = l := by
    intro l
    unfold swap_2byte
    rw [if_pos hodd]
  have hpl := rx_payload_length size reply.rx
  have hread : (bu21150_read_register cfg ts addr size data reply).2.1
      = (spi_rx_buf (size + SPI_HEADER_SIZE) reply.rx).drop SPI_HEADER_SIZE
          ++ data.drop size := by
    simp only [bu21150_read_register, h16, hsw]
    exact memcpy_exact _ _ _ hpl
  refine ⟨hsw data, rfl, rfl, ?_, hread, ?_, rfl, rfl, ?_, ?_⟩
  · simp only [read_xfer, h16, SPI_HEADER_SIZE]
  · rw [hread, List.drop_left' hpl]
  · simp only [write_xfer, h16, SPI_HEADER_SIZE]
  · intro hlen
    simp only [write_xfer, h16, hsw, memcpy]
    rw [Nat.min_eq_left hlen, List.drop_of_length_le (by simp)]
    simp

theorem odd_size_transfers_unswapped_witness :
    (bu21150_read_register cfg_le opened 0x0400 3 [9, 9, 9, 9] ⟨0, [0, 0, 0, 1, 2, 3]⟩).2.1
        = [1, 2, 3, 9] ∧
      (write_xfer cfg_le 0x0400 3 [1, 2, 3]).tx_buf = [2, 4, 0, 1, 2, 3] :=
  ⟨(odd_size_transfers_unswapped cfg_le opened 0x0400 3 [9, 9, 9, 9] ⟨0, [0, 0, 0, 1, 2, 3]⟩ 0
      (by decide) (by decide)).2.2.2.2.1,
   (odd_size_transfers_unswapped cfg_le opened 0x0400 3 [1, 2, 3] ⟨0, []⟩ 0
      (by decide) (by decide)).2.2.2.2.2.2.2.2.2 (by decide)⟩

/-- C7 (counterexample): a read of three bytes is not rejected. It returns `0`, hands a
transfer of six bytes to the bus, and overwrites the first three bytes of the destination with
what the bus delivered; a write of three bytes likewise returns `0` and hands a transfer of six
bytes to the bus. -/
theorem odd_size_is_not_rejected :
    (bu21150_read_register cfg_le opened 0x0400 3 [9, 9, 9, 9] ⟨0, [0, 0, 0, 1, 2, 3]⟩).1 = 0 ∧
      (bu21150_read_register cfg_le opened 0x0400 3 [9, 9, 9, 9] ⟨0, [0, 0, 0, 1, 2, 3]⟩).2.1
        ≠ [9, 9, 9, 9] ∧
      opened.spi_log = [] ∧
      (bu21150_read_register cfg_le opened 0x0400 3 [9, 9, 9, 9]
          ⟨0, [0, 0, 0, 1, 2, 3]⟩).2.2.spi_log
        = [⟨[3, 4, 0, 0, 0, 0], true, 6, 0, 32⟩] ∧
      (bu21150_write_register cfg_le opened 0x0400 3 [1, 2, 3] 0).1 = 0 ∧
      (bu21150_write_register cfg_le opened 0x0400 3 [1, 2, 3] 0).2.spi_log
        = [⟨[2, 4, 0, 1, 2, 3], false, 6, 0, 8⟩] := by
  decide


theorem swap_words_append (cfg : Config) : ∀ (n : Nat) (a b : List Nat),
    a.length = 2 * n → swap_words cfg n (a ++ b) = swap_words cfg n a ++ b := by
  intro n
  induction n with
  | zero =>
    intro a b h
    have : a = [] := List.length_eq_zero.mp (by omega)
    subst this
    cases b with
    | nil => simp [swap_words]
    | cons x t => cases t <;> simp [swap_words]
  | succ n ih =>
    intro a b h
    match a with
    | [] => simp at h
    | [x] => simp at h; omega
    | x :: y :: rest =>
      simp only [List.length_cons] at h
      have e := ih rest b (by omega)
      simp only [List.cons_append, swap_words]
      rw [show rest.append b = rest ++ b from rfl, e]

theorem swap_words_involutive (cfg : Config) : ∀ (n : Nat) (l : List Nat),
    swap_words cfg n (swap_words cfg n l) = l := by
  intro n
  induction n with
  | zero =>
    intro l
    match l with
    | [] => simp [swap_words]
    | [x] => simp [swap_words]
    | x :: y :: rest => simp [swap_words]
  | succ n ih =>
    intro l
    match l with
    | [] => simp [swap_words]
    | [x] => simp [swap_words]
    | x :: y :: rest =>
      simp only [swap_words, be16_to_cpus]
      cases cfg.big_endian <;> simp [ih rest]


theorem spi_rx_buf_exact (len : Nat) (rx : List Nat) (h : rx.length = len) :
    spi_rx_buf len rx = rx := by
  unfold spi_rx_buf
  rw [List.take_append_of_le_length (by omega), ← h, List.take_length]

theorem write_xfer_even (cfg : Config) (addr : Nat) (payload : List Nat)
    (h16 : payload.length % 2^16 = payload.length) (heven : payload.length % 2 = 0) :
    write_xfer cfg addr payload.length payload
      = { tx_buf := spi_header 0x02 (addr % 2^32) ++
            swap_words cfg (payload.length / 2) payload
          rx := false
          len := payload.length + SPI_HEADER_SIZE
          cs_change := 0
          bits_per_word := 8 } := by
  have hm : memcpy (List.replicate payload.length 0) payload payload.length = payload := by
    rw [memcpy_exact _ _ _ rfl, List.drop_of_length_le (by simp)]
    simp
  unfold write_xfer
  rw [h16, hm]
  unfold swap_2byte
  rw [if_neg (by omega)]

/-- C8: on the mock bus, for every address and every payload of even length `N` of at most
`MAX_FRAME_SIZE`, the transfer `bu21150_write_register` hands to the bus followed by the
transfer `bu21150_read_register` hands to the bus for the same address and size makes the read
return the original payload: the destination holds the payload followed by the bytes it had
after the first `N`. -/
theorem write_then_read_round_trip (cfg : Config) (ts : bu21150_data) (bus : MockBus)
    (addr : Nat) (payload data : List Nat)
    (heven : payload.length % 2 = 0) (hmax : payload.length ≤ MAX_FRAME_SIZE) :
    (bu21150_write_register cfg ts addr payload.length payload 0).2.spi_log
      = ts.spi_log ++ [write_xfer cfg addr payload.length payload] ∧
    (bu21150_read_register cfg ts addr payload.length data
        (mock_spi_sync
          (mock_spi_sync bus (write_xfer cfg addr payload.length payload)).2
          (read_xfer addr payload.length)).1).2.2.spi_log
      = ts.spi_log ++ [read_xfer addr payload.length] ∧
    (bu21150_read_register cfg ts addr payload.length data
        (mock_spi_sync
          (mock_spi_sync bus (write_xfer cfg addr payload.length payload)).2
          (read_xfer addr payload.length)).1).2.1
      = payload ++ data.drop payload.length ∧
    ((bu21150_read_register cfg ts addr payload.length data
        (mock_spi_sync
          (mock_spi_sync bus (write_xfer cfg addr payload.length payload)).2
          (read_xfer addr payload.length)).1).2.1).take payload.length
      = payload := by
  have hlt : payload.length < 2^16 := by
    have : payload.length ≤ 8208 := hmax
    omega
  have h16 : payload.length % 2^16 = payload.length := Nat.mod_eq_of_lt hlt
  have hS : (swap_words cfg (payload.length / 2) payload).length = payload.length :=
    swap_words_length cfg _ _
  have hbus : (mock_spi_sync bus (write_xfer cfg addr payload.length payload)).2
      = Function.update bus
          (((addr % 2^32) &&& 0xFF00) >>> 8 * 256 + ((addr % 2^32) &&& 0x00FF) >>> 0)
          (swap_words cfg (payload.length / 2) payload) := by
    rw [write_xfer_even cfg addr payload h16 heven]
    simp only [mock_spi_sync, spi_header, List.cons_append, List.getD_cons_zero,
      List.getD_cons_succ, if_true, SPI_HEADER_SIZE]
    rw [List.take_of_length_le (by simp [hS])]
    simp
  have hreply : (mock_spi_sync
      (mock_spi_sync bus (write_xfer cfg addr payload.length payload)).2
      (read_xfer addr payload.length)).1
      = ⟨0, [0, 0, 0] ++ swap_words cfg (payload.length / 2) payload⟩ := by
    rw [hbus]
    simp [mock_spi_sync, read_xfer, spi_header]
  rw [hreply]
  have hout : (spi_rx_buf (payload.length + SPI_HEADER_SIZE)
      ([0, 0, 0] ++ swap_words cfg (payload.length / 2) payload)).drop SPI_HEADER_SIZE
      = swap_words cfg (payload.length / 2) payload := by
    rw [spi_rx_buf_exact _ _ (by simp [hS, SPI_HEADER_SIZE])]
    simp [SPI_HEADER_SIZE]
  have hres : (bu21150_read_register cfg ts addr payload.length data
      ⟨0, [0, 0, 0] ++ swap_words cfg (payload.length / 2) payload⟩).2.1
      = payload ++ data.drop payload.length := by
    simp only [bu21150_read_register, h16, hout]
    rw [memcpy_exact _ _ _ hS]
    unfold swap_2byte
    rw [if_neg (by omega), swap_words_append cfg _ _ _ (by rw [hS]; omega),
      swap_words_involutive]
  rw [hres]
  exact ⟨rfl, rfl, rfl, List.take_left' rfl⟩

theorem write_then_read_round_trip_witness :
    (bu21150_read_register cfg_le opened 0x0400 4 [9, 9, 9, 9, 9]
        (mock_spi_sync
          (mock_spi_sync mock_empty (write_xfer cfg_le 0x0400 4 [1, 2, 3, 4])).2
          (read_xfer 0x0400 4)).1).2.1 = [1, 2, 3, 4, 9] ∧
      (write_xfer cfg_le 0x0400 4 [1, 2, 3, 4]).tx_buf = [2, 4, 0, 2, 1, 4, 3] :=
  ⟨(write_then_read_round_trip cfg_le opened mock_empty 0x0400 [1, 2, 3, 4] [9, 9, 9, 9, 9]
      (by decide) (by decide)).2.2.1,
   by decide⟩


theorem header_hi_byte (a : Nat) : ((a % 2^32) &&& 0xFF00) >>> 8 = (a >>> 8) &&& 0xFF := by
  apply Nat.eq_of_testBit_eq
  intro i
  have e1 : (0xFF00 : Nat) = (2^8 - 1) <<< 8 := by decide
  have e2 : (0xFF : Nat) = 2^8 - 1 := by decide
  rw [e1, e2]
  simp only [Nat.testBit_shiftRight, Nat.testBit_and, Nat.testBit_mod_two_pow,
    Nat.testBit_shiftLeft, Nat.testBit_two_pow_sub_one]
  by_cases h : i < 8
  · have h2 : 8 + i < 32 := by omega
    simp [h, h2]
  · simp [h]

theorem header_lo_byte (a : Nat) : ((a % 2^32) &&& 0x00FF) >>> 0 = a &&& 0xFF := by
  apply Nat.eq_of_testBit_eq
  intro i
  have e2 : (0xFF : Nat) = 2^8 - 1 := by decide
  rw [e2]
  simp only [Nat.shiftRight_zero, Nat.testBit_and, Nat.testBit_mod_two_pow,
    Nat.testBit_two_pow_sub_one]
  by_cases h : i < 8
  · have h2 : i < 32 := by omega
    simp [h, h2]
  · simp [h]

theorem memcpy_length_same (dst src : List Nat) (n : Nat) (h : dst.length = n) :
    (memcpy dst src n).length = n := by
  unfold memcpy
  rw [List.length_append, List.length_take, List.length_drop, h]
  omega

/-- C9: for every address and every size (a `u16`), `bu21150_read_register` and
`bu21150_write_register` hand exactly one transfer to the bus; the transmitted buffer has
`size + 3` bytes and begins with the command (`0x03` for a read, `0x02` for a write), then
`(addr >> 8) & 0xFF`, then `addr & 0xFF`; and the length of the transfer is `size + 3`. -/
theorem transaction_header (cfg : Config) (ts : bu21150_data) (addr size : Nat)
    (data : List Nat) (reply : spi_reply) (ret : Int) (hsize : size < 2^16) :
    (bu21150_read_register cfg ts addr size data reply).2.2.spi_log
      = ts.spi_log ++ [read_xfer addr size] ∧
    (read_xfer addr size).tx_buf.take 3 = [0x03, (addr >>> 8) &&& 0xFF, addr &&& 0xFF] ∧
    (read_xfer addr size).tx_buf.length = size + 3 ∧
    (read_xfer addr size).len = size + 3 ∧
    (bu21150_write_register cfg ts addr size data ret).2.spi_log
      = ts.spi_log ++ [write_xfer cfg addr size data] ∧
    (write_xfer cfg addr size data).tx_buf.take 3
      = [0x02, (addr >>> 8) &&& 0xFF, addr &&& 0xFF] ∧
    (write_xfer cfg addr size data).tx_buf.length = size + 3 ∧
    (write_xfer cfg addr size data).len = size + 3 := by
  have h16 : size % 2^16 = size := Nat.mod_eq_of_lt hsize
  have hhi := header_hi_byte addr
  have hlo := header_lo_byte addr
  refine ⟨rfl, ?_, ?_, ?_, rfl, ?_, ?_, ?_⟩
  · simp only [read_xfer, spi_header, hhi, hlo]
    rfl
  · simp only [read_xfer, spi_header, h16, List.length_append, List.length_replicate,
      List.length_cons, List.length_nil]
    omega
  · simp only [read_xfer, h16, SPI_HEADER_SIZE]
  · simp only [write_xfer, spi_header, hhi, hlo]
    rfl
  · simp only [write_xfer, spi_header, h16, List.length_append, swap_2byte_length,
      memcpy_length_same _ _ _ (List.length_replicate size 0),
      List.length_cons, List.length_nil]
    omega
  · simp only [write_xfer, h16, SPI_HEADER_SIZE]

theorem transaction_header_witness :
    (read_xfer 0x12345 4).tx_buf = [0x03, 0x23, 0x45, 0, 0, 0, 0] ∧
      (read_xfer 0x12345 4).tx_buf.take 3 = [0x03, (0x12345 >>> 8) &&& 0xFF, 0x12345 &&& 0xFF] ∧
      (write_xfer cfg_le 0x12345 4 [1, 2, 3, 4]).len = 4 + 3 :=
  ⟨by decide,
   (transaction_header cfg_le opened 0x12345 4 [1, 2, 3, 4] ⟨0, []⟩ 0 (by decide)).2.1,
   (transaction_header cfg_le opened 0x12345 4 [1, 2, 3, 4] ⟨0, []⟩ 0
      (by decide)).2.2.2.2.2.2.2⟩


theorem open_resets_flags (ts : bu21150_data) (h : (bu21150_open ts).1 = Ret.ok) :
    (bu21150_open ts).2.g_bu21150_ioctl_unblock = 0 ∧
      (bu21150_open ts).2.reset_flag = 0 ∧
      (bu21150_open ts).2.timeout_enb_flag = 0 ∧
      (bu21150_open ts).2.timeout_flag = 0 ∧
      (bu21150_open ts).2.set_timer_flag = 0 ∧
      (bu21150_open ts).2.frame_get = ⟨0, 0, 0⟩ ∧
      (bu21150_open ts).2.frame_work_get = ⟨0, 0, 0⟩ ∧
      (bu21150_open ts).2.req_get = ⟨0, FRAME_HEADER_SIZE, 0⟩ ∧
      (bu21150_open ts).2.frame_waitq_flag = ts.frame_waitq_flag ∧
      (bu21150_open ts).2.get_frame_timer = ts.get_frame_timer := by
  unfold bu21150_open at h ⊢
  split
  · rename_i hb
    rw [if_pos hb] at h
    simp at h
  · simp [enable_irq]

/-- C12 (code at the failing input): close followed by a successful open of the device
`stale_a`, whose last capture was published with nobody waiting. The cancel flag,
reset-in-progress, timeout-enabled, timeout-fired and timer-armed are clear, the published and
working descriptors are all-zero and the pending request is all-zero but for the size 16; the
wait flag, which open does not touch, is still SIGNALED. -/
theorem reopen_keeps_pending_wake :
    closed_stale.g_io_opened = 0 ∧ closed_stale.frame_waitq_flag = WAITQ_WAKEUP ∧
      (bu21150_open closed_stale).1 = Ret.ok ∧
      (bu21150_open closed_stale).2.g_bu21150_ioctl_unblock = 0 ∧
      (bu21150_open closed_stale).2.reset_flag = 0 ∧
      (bu21150_open closed_stale).2.timeout_enb_flag = 0 ∧
      (bu21150_open closed_stale).2.timeout_flag = 0 ∧
      (bu21150_open closed_stale).2.set_timer_flag = 0 ∧
      (bu21150_open closed_stale).2.frame_get = ⟨0, 0, 0⟩ ∧
      (bu21150_open closed_stale).2.frame_work_get = ⟨0, 0, 0⟩ ∧
      (bu21150_open closed_stale).2.req_get = ⟨0, 16, 0⟩ ∧
      (bu21150_open closed_stale).2.frame_waitq_flag = WAITQ_WAKEUP ∧
      (bu21150_open closed_stale).2.frame_waitq_flag ≠ WAITQ_WAIT := by
  decide


theorem memcpy_length_le (dst src : List Nat) (n : Nat) (h : n ≤ dst.length) :
    (memcpy dst src n).length = dst.length := by
  unfold memcpy
  rw [List.length_append, List.length_take, List.length_drop]
  omega

theorem read_register_length (cfg : Config) (ts : bu21150_data) (addr size : Nat)
    (data : List Nat) (reply : spi_reply) (h : size ≤ data.length) (h16 : size < 2^16) :
    (bu21150_read_register cfg ts addr size data reply).2.1.length = data.length := by
  simp only [bu21150_read_register, Nat.mod_eq_of_lt h16, swap_2byte_length]
  exact memcpy_length_le _ _ _ h

theorem read_register_rest (cfg : Config) (ts : bu21150_data) (addr size : Nat)
    (data : List Nat) (reply : spi_reply) :
    (bu21150_read_register cfg ts addr size data reply).2.2.req_get = ts.req_get ∧
      (bu21150_read_register cfg ts addr size data reply).2.2.frame = ts.frame ∧
      (bu21150_read_register cfg ts addr size data reply).2.2.frame_work = ts.frame_work ∧
      (bu21150_read_register cfg ts addr size data reply).2.2.spi_buf = ts.spi_buf :=
  ⟨rfl, rfl, rfl, rfl⟩

theorem irq_work_buffers (cfg : Config) (ts : bu21150_data) (reply : spi_reply) (now : timeval)
    (h : capture_safe ts) :
    buffers_ok (bu21150_irq_work_func cfg ts reply now) := by
  obtain ⟨_, hmax, hf, hw, hs⟩ := h
  have h16 : ts.req_get.size % 2^16 = ts.req_get.size := by
    have : ts.req_get.size ≤ 8208 := hmax
    omega
  have hfw : ∀ P : List Nat,
      (swap_2byte cfg (memcpy ts.frame_work P ts.req_get.size) ts.req_get.size).length
        = MAX_FRAME_SIZE := by
    intro P
    rw [swap_2byte_length, memcpy_length_le _ _ _ (by rw [hw]; exact hmax), hw]
  unfold buffers_ok bu21150_irq_work_func
  simp only [enable_irq, bu21150_read_register, h16]
  split
  · simp only [wake_up_frame_waitq, copy_frame]
    refine ⟨?_, hfw _, hs⟩
    rw [memcpy_length_le _ _ _ (by rw [hf]), hf]
  · exact ⟨hf, hfw _, hs⟩

theorem apply_capture_safe (cfg : Config) (ts : bu21150_data) (e : Event)
    (h : capture_safe ts) : capture_safe (e.apply cfg ts) := by
  have hreq := apply_req_get cfg ts e
  obtain ⟨h1, h2, hb⟩ := h
  refine ⟨by rw [hreq]; exact h1, by rw [hreq]; exact h2, ?_⟩
  obtain ⟨hf, hw, hs⟩ := hb
  cases e with
  | signal => exact ⟨hf, hw, hs⟩
  | irq reply now =>
    exact irq_work_buffers cfg (bu21150_irq_handler ts) reply now ⟨h1, h2, hf, hw, hs⟩
  | timer j =>
    simp only [Event.apply, run_timers, get_frame_timer_handler, wake_up_frame_waitq]
    split <;> exact ⟨hf, hw, hs⟩
  | reset level =>
    simp only [Event.apply, bu21150_ioctl_reset]
    split
    · exact ⟨hf, hw, hs⟩
    · split <;> exact ⟨hf, hw, hs⟩
  | unblock => exact ⟨hf, hw, hs⟩
  | unblock_release => exact ⟨hf, hw, hs⟩
  | suspend => exact ⟨hf, hw, hs⟩
  | resume => exact ⟨hf, hw, hs⟩
  | set_timeout arg =>
    cases arg with
    | null => exact ⟨hf, hw, hs⟩
    | fault => exact ⟨hf, hw, hs⟩
    | ok data =>
      simp only [Event.apply, bu21150_ioctl_set_timeout, get_frame_timer_delete]
      split
      · exact ⟨hf, hw, hs⟩
      · split <;> exact ⟨hf, hw, hs⟩
  | set_scan_mode arg => cases arg <;> exact ⟨hf, hw, hs⟩
  | spi_read arg reply =>
    cases arg with
    | null => exact ⟨hf, hw, hs⟩
    | fault => exact ⟨hf, hw, hs⟩
    | ok data =>
      simp only [Event.apply, bu21150_ioctl_spi_read]
      split
      · exact ⟨hf, hw, hs⟩
      · rename_i hv
        have hc : data.count ≤ MAX_FRAME_SIZE := by
          by_contra hc
          exact hv (Or.inr (Or.inr (by omega)))
        have h16 : data.count < 2^16 := by
          have : data.count ≤ 8208 := hc
          omega
        have hlen := read_register_length cfg ts data.addr data.count ts.spi_buf reply
          (by rw [hs]; exact hc) h16
        split <;> exact ⟨hf, hw, hlen.trans hs⟩
  | spi_write arg user ret =>
    cases arg with
    | null => exact ⟨hf, hw, hs⟩
    | fault => exact ⟨hf, hw, hs⟩
    | ok data =>
      simp only [Event.apply, bu21150_ioctl_spi_write, bu21150_write_register]
      split
      · exact ⟨hf, hw, hs⟩
      · rename_i hv
        have hc : data.count ≤ MAX_FRAME_SIZE := by
          by_contra hc
          exact hv (Or.inr (Or.inr (by omega)))
        cases user with
        | none => exact ⟨hf, hw, hs⟩
        | some bytes =>
          exact ⟨hf, hw, by
            show (memcpy ts.spi_buf bytes data.count).length = MAX_FRAME_SIZE
            rw [memcpy_length_le _ _ _ (by rw [hs]; exact hc), hs]⟩

theorem wait_event_capture_safe (cfg : Config) (evs : List Event) : ∀ ts,
    capture_safe ts → capture_safe (wait_event_interruptible cfg ts evs).2.1 := by
  induction evs with
  | nil => intro ts h; simp only [wait_event_interruptible]; split <;> exact h
  | cons e rest ih =>
    intro ts h
    simp only [wait_event_interruptible]
    split
    · exact h
    · have h' := ih _ (apply_capture_safe cfg ts e h)
      cases e <;> first | exact h | exact h'

theorem wait_frame_capture_safe (cfg : Config) (ts : bu21150_data) (evs : List Event)
    (h : capture_safe ts) : capture_safe (wait_frame_waitq cfg ts evs).2.1 := by
  have hw := wait_event_capture_safe cfg evs ts h
  unfold wait_frame_waitq
  split
  · exact h
  · split
    · rename_i heq; rw [heq] at hw; exact hw
    · rename_i heq; rw [heq] at hw; exact hw
    · rename_i heq; rw [heq] at hw
      dsimp only
      split
      · exact hw
      · split <;> exact hw

theorem get_frame_deliver_capture_safe (ts : bu21150_data)
    (data : bu21150_ioctl_get_frame_data) (uaccess : Nat → Bool) (h : capture_safe ts) :
    capture_safe (get_frame_deliver ts data uaccess).2 := by
  have hd : capture_safe (if ts.timeout_enb_flag = 1 then get_frame_timer_delete ts else ts) := by
    split
    · unfold get_frame_timer_delete; split <;> exact h
    · exact h
  unfold get_frame_deliver
  simp only
  split
  · exact hd
  · split <;> exact hd

theorem get_frame_loop_capture_safe (cfg : Config) (data : bu21150_ioctl_get_frame_data)
    (uaccess : Nat → Bool) (h1 : 1 ≤ data.size) (h2 : data.size ≤ MAX_FRAME_SIZE) :
    ∀ (n : Nat) (ts : bu21150_data) (evs : List Event), capture_safe ts →
      capture_safe (get_frame_loop cfg data uaccess n ts evs).2 := by
  intro n
  induction n with
  | zero => intro ts evs h; exact h
  | succ n ih =>
    intro ts evs h
    have hin : capture_safe { ts with req_get := data } := ⟨h1, h2, h.2.2⟩
    have hw := wait_frame_capture_safe cfg { ts with req_get := data } evs hin
    unfold get_frame_loop
    split
    · rename_i heq; rw [heq] at hw; exact hw
    · rename_i ret ts1 rest heq
      rw [heq] at hw
      split
      · exact hw
      · split
        · exact ih ts1 rest hw
        · exact get_frame_deliver_capture_safe ts1 data uaccess hw

theorem get_frame_capture_safe (cfg : Config) (ts : bu21150_data)
    (arg : UserArg bu21150_ioctl_get_frame_data) (jiffies : Nat) (uaccess : Nat → Bool)
    (evs : List Event) (h : capture_safe ts) :
    capture_safe (bu21150_ioctl_get_frame cfg ts arg jiffies uaccess evs).2 := by
  cases arg with
  | null => exact h
  | fault => exact h
  | ok data =>
    simp only [bu21150_ioctl_get_frame]
    split
    · exact h
    · rename_i hv
      have h1 : 1 ≤ data.size := by
        by_contra hc
        exact hv (Or.inr (Or.inl (by omega)))
      have h2 : data.size ≤ MAX_FRAME_SIZE := by
        by_contra hc
        exact hv (Or.inr (Or.inr (Or.inl (by omega))))
      apply get_frame_loop_capture_safe cfg data uaccess h1 h2
      split
      · unfold get_frame_timer_init
        simp only
        split <;> split <;> exact h
      · exact h

theorem open_capture_safe (ts : bu21150_data) (hb : buffers_ok ts)
    (h : (bu21150_open ts).1 = Ret.ok) : capture_safe (bu21150_open ts).2 := by
  obtain ⟨_, _, _, _, _, _, _, hreq, _, _⟩ := open_resets_flags ts h
  refine ⟨by rw [hreq]; decide, by rw [hreq]; decide, ?_⟩
  unfold bu21150_open
  split <;> exact hb

theorem op_capture_safe (cfg : Config) (ts : bu21150_data) (op : Op) (h : capture_safe ts) :
    capture_safe (op.run cfg ts) := by
  cases op with
  | dev_open =>
    by_cases hok : (bu21150_open ts).1 = Ret.ok
    · exact open_capture_safe ts h.2.2 hok
    · simp only [Op.run, bu21150_open] at hok ⊢
      split
      · exact h
      · rename_i hz
        rw [if_neg hz] at hok
        exact absurd rfl hok
  | dev_release =>
    simp only [Op.run, bu21150_release]
    split <;> exact h
  | get_frame arg jiffies uaccess evs => exact get_frame_capture_safe cfg ts arg jiffies uaccess evs h
  | event e => exact apply_capture_safe cfg ts e h

theorem run_ops_capture_safe (cfg : Config) (ops : List Op) : ∀ ts,
    capture_safe ts → capture_safe (run_ops cfg ts ops) := by
  induction ops with
  | nil => intro ts h; exact h
  | cons op rest ih =>
    intro ts h
    exact ih _ (op_capture_safe cfg ts op h)

/-- C13: in every state reached from a successful open (of a device whose byte arrays have
their declared size) through any sequence of opens, closes, get-frame calls, other control
operations, capture cycles and timer runs, the pending request's size is between 1 and
`MAX_FRAME_SIZE`. Hence a capture cycle started in that state passes a size that the 16-bit
parameter holds without truncation (the transfer has that size plus 3 bytes), the size does
not exceed the working buffer, and the working buffer still has `MAX_FRAME_SIZE` bytes after
the cycle. -/
theorem pending_size_in_range (cfg : Config) (ts0 : bu21150_data) (ops : List Op)
    (reply : spi_reply) (now : timeval) (hb : buffers_ok ts0)
    (hopen : (bu21150_open ts0).1 = Ret.ok) :
    let s := run_ops cfg (bu21150_open ts0).2 ops
    1 ≤ s.req_get.size ∧ s.req_get.size ≤ MAX_FRAME_SIZE ∧
      s.req_get.size % 2^16 = s.req_get.size ∧
      (bu21150_irq_work_func cfg s reply now).spi_log
        = s.spi_log ++ [read_xfer REG_READ_DATA s.req_get.size] ∧
      (read_xfer REG_READ_DATA s.req_get.size).len = s.req_get.size + SPI_HEADER_SIZE ∧
      s.req_get.size ≤ s.frame_work.length ∧
      (bu21150_irq_work_func cfg s reply now).frame_work.length = MAX_FRAME_SIZE := by
  intro s
  have hs : capture_safe s := run_ops_capture_safe cfg ops _ (open_capture_safe ts0 hb hopen)
  obtain ⟨h1, h2, hf, hw, hsp⟩ := hs
  have h16 : s.req_get.size % 2^16 = s.req_get.size := by
    have : s.req_get.size ≤ 8208 := h2
    omega
  refine ⟨h1, h2, h16, ?_, ?_, by rw [hw]; exact h2,
    (irq_work_buffers cfg s reply now ⟨h1, h2, hf, hw, hsp⟩).2.1⟩
  · simp only [bu21150_irq_work_func, bu21150_read_register, enable_irq]
    split <;> rfl
  · simp only [read_xfer, h16]

theorem pending_size_in_range_witness :
    (run_ops cfg_le (bu21150_open probed).2
        [Op.event (Event.set_timeout (.ok ⟨1, 1000000⟩)),
         Op.get_frame (.ok req_a) 0 all_ok [Event.irq ⟨0, [0, 0, 0, 1, 2, 3, 4]⟩ ⟨5, 6⟩],
         Op.get_frame (.ok ⟨4096, 8209, 8192⟩) 5 all_ok [],
         Op.dev_release, Op.dev_open,
         Op.get_frame (.ok req_b) 9 all_ok [Event.signal]]).req_get.size = 6 ∧
      1 ≤ (run_ops cfg_le (bu21150_open probed).2
        [Op.event (Event.set_timeout (.ok ⟨1, 1000000⟩)),
         Op.get_frame (.ok req_a) 0 all_ok [Event.irq ⟨0, [0, 0, 0, 1, 2, 3, 4]⟩ ⟨5, 6⟩],
         Op.get_frame (.ok ⟨4096, 8209, 8192⟩) 5 all_ok [],
         Op.dev_release, Op.dev_open,
         Op.get_frame (.ok req_b) 9 all_ok [Event.signal]]).req_get.size :=
  ⟨by decide,
   (pending_size_in_range cfg_le probed
      [Op.event (Event.set_timeout (.ok ⟨1, 1000000⟩)),
       Op.get_frame (.ok req_a) 0 all_ok [Event.irq ⟨0, [0, 0, 0, 1, 2, 3, 4]⟩ ⟨5, 6⟩],
       Op.get_frame (.ok ⟨4096, 8209, 8192⟩) 5 all_ok [],
       Op.dev_release, Op.dev_open,
       Op.get_frame (.ok req_b) 9 all_ok [Event.signal]]
      ⟨0, []⟩ ⟨0, 0⟩ buffers_ok_probed (by decide)).1⟩


/-- C11 (code at the failing input): after `reopen_steps` (each step succeeds; the get-frame
call returns Unblock and leaves its timer queued for tick 2000) the timer is still queued while
timer-armed is clear, because open clears the flag without cancelling the timer. The next
get-frame request, entered at tick 100 with timeout mode enabled, does not cancel: it arms the
timer for tick 2100 while the instance for tick 2000 is still queued. -/
theorem rearm_without_cancel :
    (bu21150_ioctl_get_frame cfg_le timeout_on (.ok req_a) 0 all_ok [Event.unblock]).1
        = Outcome.ret Ret.BU21150_UNBLOCK ∧
      (run_ops cfg_le opened (reopen_steps.take 2)).get_frame_timer = ⟨true, 2000, 0⟩ ∧
      (run_ops cfg_le opened (reopen_steps.take 2)).set_timer_flag = 1 ∧
      (bu21150_release (run_ops cfg_le opened (reopen_steps.take 2))).1 = Ret.ok ∧
      (bu21150_open (run_ops cfg_le opened (reopen_steps.take 3))).1 = Ret.ok ∧
      reopened_armed.timeout_enb_flag = 1 ∧
      reopened_armed.set_timer_flag = 0 ∧
      reopened_armed.get_frame_timer = ⟨true, 2000, 0⟩ ∧
      arms_queued_timer reopened_armed ∧
      get_frame_timer_init reopened_armed 100
        = { reopened_armed with
            set_timer_flag := 1, timeout_flag := 0, get_frame_timer := ⟨true, 2100, 100⟩ } ∧
      (bu21150_ioctl_get_frame cfg_le reopened_armed (.ok req_b) 100 all_ok []).1
        = Outcome.asleep ∧
      (bu21150_ioctl_get_frame cfg_le reopened_armed (.ok req_b) 100 all_ok
        []).2.get_frame_timer = ⟨true, 2100, 100⟩ := by
  refine ⟨by decide, by decide, by decide, by decide, by decide, by decide, by decide,
    by decide, by decide, ?_, by decide, by decide⟩
  have h1 : ¬ reopened_armed.set_timer_flag = 1 := by decide
  have h2 : reopened_armed.timeout > 0 := by decide
  have h3 : reopened_armed.timeout = 2000 := by decide
  unfold get_frame_timer_init
  simp only [if_neg h1, if_pos h2, h3]
  rfl


theorem wait_event_done_append (cfg : Config) (pre : List Event) : ∀ (ts ts1 : bu21150_data)
    (w : Wake) (r evs : List Event), w ≠ Wake.asleep →
    wait_event_interruptible cfg ts pre = (w, ts1, r) →
    wait_event_interruptible cfg ts (pre ++ evs) = (w, ts1, r ++ evs) := by
  induction pre with
  | nil =>
    intro ts ts1 w r evs hw h
    simp only [wait_event_interruptible] at h
    split at h
    · rename_i hflag
      simp only [Prod.mk.injEq] at h
      obtain ⟨h1, h2, h3⟩ := h
      subst h1 h2 h3
      exact wait_event_woken cfg ts _ hflag
    · simp only [Prod.mk.injEq] at h
      exact absurd h.1.symm hw
  | cons e rest ih =>
    intro ts ts1 w r evs hw h
    simp only [wait_event_interruptible] at h
    split at h
    · rename_i hflag
      simp only [Prod.mk.injEq] at h
      obtain ⟨h1, h2, h3⟩ := h
      subst h1 h2 h3
      exact wait_event_woken cfg ts _ hflag
    · rename_i hflag
      cases e with
      | signal =>
        simp only [Prod.mk.injEq] at h
        obtain ⟨h1, h2, h3⟩ := h
        subst h1 h2 h3
        simp only [List.cons_append, wait_event_interruptible, if_neg hflag]
        rfl
      | _ =>
        all_goals
          simp only at h
          simp only [List.cons_append, wait_event_interruptible, if_neg hflag]
          exact ih _ ts1 w r evs hw h

theorem wait_frame_some_append (cfg : Config) (ts ts1 : bu21150_data) (ret : Ret)
    (pre r evs : List Event)
    (h : wait_frame_waitq cfg ts pre = (some ret, ts1, r)) :
    wait_frame_waitq cfg ts (pre ++ evs) = (some ret, ts1, r ++ evs) := by
  unfold wait_frame_waitq at h ⊢
  split at h
  · rename_i hg
    simp only [Prod.mk.injEq] at h
    obtain ⟨h1, h2, h3⟩ := h
    subst h2 h3
    rw [if_pos hg, ← h1]
  · rename_i hg
    rw [if_neg hg]
    split at h
    · simp at h
    · rename_i ts2 rest heq
      rw [wait_event_done_append cfg pre ts ts2 Wake.interrupted rest evs (by decide) heq]
      simp only [Prod.mk.injEq] at h ⊢
      exact ⟨h.1, h.2.1, by rw [h.2.2]⟩
    · rename_i ts2 rest heq
      rw [wait_event_done_append cfg pre ts ts2 Wake.woken rest evs (by decide) heq]
      simp only at h ⊢
      split at h
      · rename_i hc
        rw [if_pos hc]
        simp only [Prod.mk.injEq] at h ⊢
        exact ⟨h.1, h.2.1, by rw [h.2.2]⟩
      · rename_i hc
        rw [if_neg hc]
        split at h
        · rename_i hu
          rw [if_pos hu]
          simp only [Prod.mk.injEq] at h ⊢
          exact ⟨h.1, h.2.1, by rw [h.2.2]⟩
        · rename_i hu
          rw [if_neg hu]
          simp only [Prod.mk.injEq] at h ⊢
          exact ⟨h.1, h.2.1, by rw [h.2.2]⟩

theorem wait_frame_none (cfg : Config) (ts ts1 : bu21150_data) (pre r : List Event)
    (h : wait_frame_waitq cfg ts pre = (none, ts1, r)) :
    ts.g_bu21150_ioctl_unblock ≠ 1 ∧
      wait_event_interruptible cfg ts pre = (Wake.asleep, ts1, r) := by
  unfold wait_frame_waitq at h
  split at h
  · simp at h
  · rename_i hg
    refine ⟨hg, ?_⟩
    split at h
    · rename_i ts2 rest heq
      simp only [Prod.mk.injEq, true_and] at h
      rw [heq, h.1, h.2]
    · simp at h
    · simp only at h
      split at h
      · simp at h
      · split at h <;> simp at h

theorem wait_frame_timer_fires (cfg : Config) (ts ts1 : bu21150_data) (pre r rest : List Event)
    (t : Nat) (h : wait_frame_waitq cfg ts pre = (none, ts1, r))
    (henb1 : ts1.timeout_enb_flag = 1)
    (hpending : ts1.get_frame_timer.pending = true)
    (hexpired : ts1.get_frame_timer.expires ≤ t) :
    wait_frame_waitq cfg ts (pre ++ Event.timer t :: rest)
      = (some Ret.BU21150_TIMEOUT,
          { ts1 with
            get_frame_timer := del_timer_sync ts1.get_frame_timer
            frame_waitq_flag := WAITQ_WAIT
            set_timer_flag := 0
            timeout_flag := 0 }, rest) := by
  obtain ⟨hg, hsleep⟩ := wait_frame_none cfg ts ts1 pre r h
  obtain ⟨_, hflag, happ⟩ := wait_event_asleep cfg pre _ ts1 r hsleep
  have hw : wait_event_interruptible cfg ts (pre ++ Event.timer t :: rest)
      = (Wake.woken, run_timers ts1 t, rest) := by
    rw [happ]
    simp only [wait_event_interruptible, if_neg hflag, Event.apply]
    apply wait_event_woken
    simp [run_timers, hpending, hexpired, get_frame_timer_handler, wake_up_frame_waitq]
  have hrun : run_timers ts1 t
      = get_frame_timer_handler
          { ts1 with get_frame_timer := del_timer_sync ts1.get_frame_timer } := by
    simp [run_timers, hpending, hexpired]
  unfold wait_frame_waitq
  simp only [if_neg hg, hw, hrun, get_frame_timer_handler, wake_up_frame_waitq, henb1,
    and_self, if_true]

theorem get_frame_deliver_not_asleep (ts ts1 : bu21150_data)
    (data : bu21150_ioctl_get_frame_data) (uaccess : Nat → Bool) :
    get_frame_deliver ts data uaccess ≠ (Outcome.asleep, ts1) := by
  unfold get_frame_deliver
  simp only
  split
  · simp
  · split <;> simp

theorem get_frame_loop_timer_fires (cfg : Config) (data : bu21150_ioctl_get_frame_data)
    (uaccess : Nat → Bool) (ts1 : bu21150_data) (t : Nat) (rest : List Event)
    (henb1 : ts1.timeout_enb_flag = 1)
    (hpending : ts1.get_frame_timer.pending = true)
    (hexpired : ts1.get_frame_timer.expires ≤ t) :
    ∀ (n : Nat) (ts : bu21150_data) (pre : List Event) (m : Nat), n ≤ m →
      get_frame_loop cfg data uaccess n ts pre = (Outcome.asleep, ts1) →
      get_frame_loop cfg data uaccess m ts (pre ++ Event.timer t :: rest)
        = (Outcome.ret Ret.BU21150_TIMEOUT,
            { ts1 with
              get_frame_timer := del_timer_sync ts1.get_frame_timer
              frame_waitq_flag := WAITQ_WAIT
              set_timer_flag := 0
              timeout_flag := 0 }) := by
  intro n
  induction n with
  | zero => intro ts pre m _ h; simp [get_frame_loop] at h
  | succ n ih =>
    intro ts pre m hm h
    obtain ⟨m', rfl⟩ : ∃ m', m = m' + 1 := ⟨m - 1, by omega⟩
    unfold get_frame_loop at h ⊢
    split at h
    · rename_i ts2 r heq
      simp only [Prod.mk.injEq, true_and] at h
      subst h
      rw [wait_frame_timer_fires cfg _ ts2 pre r rest t heq henb1 hpending hexpired]
      simp
    · rename_i ret ts2 r heq
      rw [wait_frame_some_append cfg _ ts2 ret pre r _ heq]
      simp only
      split at h
      · simp at h
      · rename_i hret
        rw [if_neg hret]
        split at h
        · rename_i hsame
          rw [if_pos hsame]
          exact ih ts2 r m' (by omega) h
        · exact absurd h (get_frame_deliver_not_asleep ts2 ts1 data uaccess)

theorem apply_timeout_enb (cfg : Config) (ts : bu21150_data) (e : Event)
    (he : e.is_set_timeout = false) :
    (e.apply cfg ts).timeout_enb_flag = ts.timeout_enb_flag := by
  cases e with
  | signal => rfl
  | irq reply now =>
    simp only [Event.apply, bu21150_irq_work_func, enable_irq, bu21150_read_register,
      bu21150_irq_handler, wake_up_frame_waitq, copy_frame]
    split <;> rfl
  | timer j =>
    simp only [Event.apply, run_timers, get_frame_timer_handler, wake_up_frame_waitq]
    split <;> rfl
  | reset level =>
    simp only [Event.apply, bu21150_ioctl_reset]
    split
    · rfl
    · split <;> rfl
  | unblock => rfl
  | unblock_release => rfl
  | suspend => rfl
  | resume => rfl
  | set_timeout arg => simp [Event.is_set_timeout] at he
  | set_scan_mode arg => cases arg <;> rfl
  | spi_read arg reply =>
    cases arg with
    | null => rfl
    | fault => rfl
    | ok data =>
      simp only [Event.apply, bu21150_ioctl_spi_read, bu21150_read_register]
      split
      · rfl
      · split <;> rfl
  | spi_write arg user ret =>
    cases arg with
    | null => rfl
    | fault => rfl
    | ok data =>
      simp only [Event.apply, bu21150_ioctl_spi_write, bu21150_write_register]
      split
      · rfl
      · cases user <;> rfl

theorem wait_event_timeout_enb (cfg : Config) (evs : List Event) : ∀ ts,
    (∀ e ∈ evs, e.is_set_timeout = false) →
    (wait_event_interruptible cfg ts evs).2.1.timeout_enb_flag = ts.timeout_enb_flag ∧
      ∀ e ∈ (wait_event_interruptible cfg ts evs).2.2, e.is_set_timeout = false := by
  induction evs with
  | nil => intro ts h; simp only [wait_event_interruptible]; split <;> exact ⟨rfl, h⟩
  | cons e rest ih =>
    intro ts h
    have he := h e (List.mem_cons_self e rest)
    have hrest : ∀ x ∈ rest, x.is_set_timeout = false :=
      fun x hx => h x (List.mem_cons_of_mem e hx)
    simp only [wait_event_interruptible]
    split
    · exact ⟨rfl, h⟩
    · have h' := ih (e.apply cfg ts) hrest
      rw [apply_timeout_enb cfg ts e he] at h'
      cases e <;> first | exact ⟨rfl, hrest⟩ | exact h'

theorem wait_frame_timeout_enb (cfg : Config) (ts : bu21150_data) (evs : List Event)
    (h : ∀ e ∈ evs, e.is_set_timeout = false) :
    (wait_frame_waitq cfg ts evs).2.1.timeout_enb_flag = ts.timeout_enb_flag ∧
      ∀ e ∈ (wait_frame_waitq cfg ts evs).2.2, e.is_set_timeout = false := by
  have hw := wait_event_timeout_enb cfg evs ts h
  unfold wait_frame_waitq
  split
  · exact ⟨rfl, h⟩
  · split
    · rename_i heq; rw [heq] at hw; exact hw
    · rename_i heq; rw [heq] at hw; exact hw
    · rename_i heq; rw [heq] at hw
      dsimp only
      split
      · exact hw
      · split <;> exact hw

theorem get_frame_loop_timeout_enb (cfg : Config) (data : bu21150_ioctl_get_frame_data)
    (uaccess : Nat → Bool) : ∀ (n : Nat) (ts : bu21150_data) (evs : List Event),
    (∀ e ∈ evs, e.is_set_timeout = false) →
    (get_frame_loop cfg data uaccess n ts evs).2.timeout_enb_flag = ts.timeout_enb_flag := by
  intro n
  induction n with
  | zero => intro ts evs _; rfl
  | succ n ih =>
    intro ts evs h
    have hw := wait_frame_timeout_enb cfg { ts with req_get := data } evs h
    unfold get_frame_loop
    split
    · rename_i heq; rw [heq] at hw; exact hw.1
    · rename_i ret ts1 rest heq
      rw [heq] at hw
      split
      · exact hw.1
      · split
        · rw [ih ts1 rest hw.2]; exact hw.1
        · have hd : (get_frame_deliver ts1 data uaccess).2.timeout_enb_flag
              = ts1.timeout_enb_flag := by
            unfold get_frame_deliver get_frame_timer_delete
            simp only
            split <;> split <;> (try split) <;> (try split) <;> rfl
          rw [hd]; exact hw.1

theorem get_frame_timeout_enb (cfg : Config) (ts : bu21150_data)
    (arg : UserArg bu21150_ioctl_get_frame_data) (jiffies : Nat) (uaccess : Nat → Bool)
    (evs : List Event) (h : ∀ e ∈ evs, e.is_set_timeout = false) :
    (bu21150_ioctl_get_frame cfg ts arg jiffies uaccess evs).2.timeout_enb_flag
      = ts.timeout_enb_flag := by
  cases arg with
  | null => rfl
  | fault => rfl
  | ok data =>
    simp only [bu21150_ioctl_get_frame]
    split
    · rfl
    · rw [get_frame_loop_timeout_enb cfg data uaccess _ _ evs h]
      split
      · unfold get_frame_timer_init
        simp only
        split <;> split <;> rfl
      · rfl

/-- C5: take any get-frame call that is asleep after the events `pre` (in its first wait or
after having consumed wakes that did not match and gone back to sleep), with the timer queued
and its expiry reached at tick `t`. If timeout mode is enabled at that moment, the call
returns Timeout when the timer subsystem runs at tick `t`, whatever follows (a later capture
included): no frame is returned, and on return the timer is not queued, timer-armed and
timeout-fired are clear and the wait flag is WAITING. Timeout mode is enabled at that moment
whenever it was enabled when the call entered and no set-timeout operation is among `pre`. -/
theorem timer_expiry_returns_timeout (cfg : Config) (ts ts1 : bu21150_data)
    (data : bu21150_ioctl_get_frame_data) (jiffies t : Nat) (uaccess : Nat → Bool)
    (pre rest : List Event)
    (hsleep : bu21150_ioctl_get_frame cfg ts (.ok data) jiffies uaccess pre
      = (Outcome.asleep, ts1))
    (hpending : ts1.get_frame_timer.pending = true)
    (hexpired : ts1.get_frame_timer.expires ≤ t) :
    (ts1.timeout_enb_flag = 1 →
      bu21150_ioctl_get_frame cfg ts (.ok data) jiffies uaccess (pre ++ Event.timer t :: rest)
        = (Outcome.ret Ret.BU21150_TIMEOUT,
            { ts1 with
              get_frame_timer := del_timer_sync ts1.get_frame_timer
              frame_waitq_flag := WAITQ_WAIT
              set_timer_flag := 0
              timeout_flag := 0 })) ∧
    (ts.timeout_enb_flag = 1 → (∀ e ∈ pre, e.is_set_timeout = false) →
      ts1.timeout_enb_flag = 1 ∧
      bu21150_ioctl_get_frame cfg ts (.ok data) jiffies uaccess (pre ++ Event.timer t :: rest)
        = (Outcome.ret Ret.BU21150_TIMEOUT,
            { ts1 with
              get_frame_timer := del_timer_sync ts1.get_frame_timer
              frame_waitq_flag := WAITQ_WAIT
              set_timer_flag := 0
              timeout_flag := 0 })) := by
  have main : ts1.timeout_enb_flag = 1 →
      bu21150_ioctl_get_frame cfg ts (.ok data) jiffies uaccess (pre ++ Event.timer t :: rest)
        = (Outcome.ret Ret.BU21150_TIMEOUT,
            { ts1 with
              get_frame_timer := del_timer_sync ts1.get_frame_timer
              frame_waitq_flag := WAITQ_WAIT
              set_timer_flag := 0
              timeout_flag := 0 }) := by
    intro henb1
    simp only [bu21150_ioctl_get_frame] at hsleep ⊢
    split at hsleep
    · simp at hsleep
    · rename_i hvalid
      rw [if_neg hvalid]
      exact get_frame_loop_timer_fires cfg data uaccess ts1 t rest henb1 hpending hexpired
        _ _ pre _ (by simp only [List.length_append, List.length_cons]; omega) hsleep
  refine ⟨main, ?_⟩
  intro henb hpre
  have h1 : ts1.timeout_enb_flag = 1 := by
    have := get_frame_timeout_enb cfg ts (.ok data) jiffies uaccess pre hpre
    rw [hsleep] at this
    exact this.trans henb
  exact ⟨h1, main h1⟩

theorem timer_expiry_returns_timeout_witness :
    stale_wake_timeout.frame_waitq_flag = WAITQ_WAKEUP ∧
      stale_wake_timeout.timeout_enb_flag = 1 ∧
      (bu21150_ioctl_get_frame cfg_le stale_wake_timeout (.ok req_a) 10 all_ok
        [Event.reset BU21150_RESET_HIGH]).1 = Outcome.asleep ∧
      (bu21150_ioctl_get_frame cfg_le stale_wake_timeout (.ok req_a) 10 all_ok
        ([Event.reset BU21150_RESET_HIGH] ++
          Event.timer 2010 :: [Event.irq ⟨0, [0, 0, 0, 1, 2, 3, 4]⟩ ⟨5, 6⟩])).1
        = Outcome.ret Ret.BU21150_TIMEOUT ∧
      (bu21150_ioctl_get_frame cfg_le stale_wake_timeout (.ok req_a) 10 all_ok
        ([Event.reset BU21150_RESET_HIGH] ++
          Event.timer 2010 :: [Event.irq ⟨0, [0, 0, 0, 1, 2, 3, 4]⟩ ⟨5, 6⟩])).2.set_timer_flag
        = 0 :=
  ⟨by decide, by decide, by decide, by decide,
   congrArg (fun p => p.2.set_timer_flag)
    ((timer_expiry_returns_timeout cfg_le stale_wake_timeout
      (bu21150_ioctl_get_frame cfg_le stale_wake_timeout (.ok req_a) 10 all_ok
        [Event.reset BU21150_RESET_HIGH]).2
      req_a 10 2010 all_ok [Event.reset BU21150_RESET_HIGH]
      [Event.irq ⟨0, [0, 0, 0, 1, 2, 3, 4]⟩ ⟨5, 6⟩]
      (Prod.ext (by decide) rfl) (by decide) (by decide)).2 (by decide) (by decide)).2⟩


end BU21150
